import Mathlib

/-!
A verification development for the pykiddou repository: a shallow embedding in
Lean 4 of the scanner, parser, checker, environment, container and interpreter
found under src/, together with theorems settling the specification claims.

Machine integers in the source are Python big-ints, embedded as Lean Int.
Python floats are IEEE-754 doubles; they are embedded as the sum
finite-rational / +inf / -inf / nan.  Equality and sign tests on doubles are
exact, so this model is faithful for every claim settled here; none of the
claims depends on rounding of float arithmetic.
-/

namespace PyKiddou

/-- Model of a Python float: a finite double (represented by its exact
rational value), an infinity, or nan. -/
inductive PyFloat : Type where
  | finite (q : ℚ)
  | inf
  | neginf
  | nan
deriving DecidableEq

namespace PyFloat

/-- Python truth test relevant here: sign extraction for math.copysign.
copysign(inf, x) is +inf unless x has a negative sign. -/
def isNegSign : PyFloat → Bool
  | .finite q => q < 0
  | .neginf => true
  | _ => false

/-- Python: x == 0 test on a float (nan is not 0, -0.0 is 0). -/
def isZero : PyFloat → Bool
  | .finite q => q = 0
  | _ => false

end PyFloat

/-- Runtime values, from src/value.py (Undef, Bool, Int, Float, String),
src/container.py (KiddouList), src/callable.py (Function / LibraryFunction /
KiddouBlock) and src/object.py (KiddouModule).

Lists, blocks and environments are mutable objects in the source; the
embedding stores them in heaps inside the interpreter state and values hold
their heap indices.  A module's environment field is never reassigned, so the
module value carries the environment index directly. -/
inductive Value : Type where
  | undef
  | bool (val : Bool)
  | int (val : ℤ)
  | float (val : PyFloat)
  | str (val : String)
  | list (ref : ℕ)
  | libfunc (name : String)
  | block (ref : ℕ)
  | module (envRef : ℕ)
deriving DecidableEq

namespace Value

/-- Value.type_name from the source: the class name of the value
(src/value.py uses self.__class__.__name__; KiddouList returns "List",
Function and KiddouBlock return "Func", KiddouModule returns "Module"). -/
def type_name : Value → String
  | .undef => "Undef"
  | .bool _ => "Bool"
  | .int _ => "Int"
  | .float _ => "Float"
  | .str _ => "String"
  | .list _ => "List"
  | .libfunc _ => "Func"
  | .block _ => "Func"
  | .module _ => "Module"

/-- isinstance(value, Undef). -/
def isUndef : Value → Bool
  | .undef => true
  | _ => false

end Value

/-- is_number from src/interpreter.py: isinstance Int or Float. -/
def is_number : Value → Bool
  | .int _ => true
  | .float _ => true
  | _ => false

/-- is_falsey from src/interpreter.py: Undef, or Bool with val == False. -/
def is_falsey : Value → Bool
  | .undef => true
  | .bool b => !b
  | _ => false

/-- is_truthy from src/interpreter.py. -/
def is_truthy (v : Value) : Bool := !is_falsey v

/-- The RuntimeException hierarchy of src/exception.py, with the message
passed to the constructor (the source prepends the class name when
stringifying; the kind is kept structured here). -/
inductive RuntimeException : Type where
  | typeException (msg : String)
  | divisionException (msg : String)
  | nameException (msg : String)
  | immutableException (msg : String)
  | attributeException (msg : String)
  | indexOutOfBoundsException (msg : String)
deriving DecidableEq

/-- type_exception from src/interpreter.py: the TypeException message built
from an operator symbol and the operand type names. -/
def type_exception (operator : String) (values : List Value) : RuntimeException :=
  .typeException (operator ++ " operation not defined for types: " ++
    String.intercalate ", " (values.map (fun v => "<" ++ v.type_name ++ ">")))

/-! ## The List container, from src/container.py -/

namespace KiddouList

/-- Python list read ls[idx]: a negative index wraps from the end; an index
outside [-len, len) raises IndexError, modelled as none. -/
def pyGetItem (ls : List Value) (idx : ℤ) : Option Value :=
  if 0 ≤ idx then
    (if idx < (ls.length : ℤ) then ls[idx.toNat]? else none)
  else
    (if 0 ≤ (ls.length : ℤ) + idx then ls[((ls.length : ℤ) + idx).toNat]? else none)

/-- Python list write ls[idx] = v, with the same index convention. -/
def pySetItem (ls : List Value) (idx : ℤ) (v : Value) : Option (List Value) :=
  if 0 ≤ idx then
    (if idx < (ls.length : ℤ) then some (ls.set idx.toNat v) else none)
  else
    (if 0 ≤ (ls.length : ℤ) + idx then some (ls.set ((ls.length : ℤ) + idx).toNat v) else none)

/-- KiddouList.get: the index must be an Int; the element is returned when
max(~idx, idx) < len (Python ~idx = -idx - 1), else Undef.  Under that guard
the Python read never raises, so the none branch of pyGetItem is
unreachable (kept as an explicit error for totality). -/
def get (ls : List Value) (index : Value) : Except RuntimeException Value :=
  match index with
  | .int idx =>
      if max (-idx - 1) idx < (ls.length : ℤ) then
        match pyGetItem ls idx with
        | some v => .ok v
        | none => .error (.indexOutOfBoundsException "unreachable")
      else .ok .undef
  | other => .error (.typeException
      ("List index should be Int, was " ++ other.type_name))

/-- KiddouList.set: the index must be an Int; in place write when
max(~idx, idx) < len, else IndexOutOfBoundsException. -/
def set (ls : List Value) (index : Value) (value : Value) :
    Except RuntimeException (List Value) :=
  match index with
  | .int idx =>
      if max (-idx - 1) idx < (ls.length : ℤ) then
        match pySetItem ls idx value with
        | some ls' => .ok ls'
        | none => .error (.indexOutOfBoundsException "unreachable")
      else .error (.indexOutOfBoundsException
        (toString (max (-idx - 1) idx) ++ ">=" ++ toString ls.length))
  | other => .error (.typeException
      ("List index should be Int, was " ++ other.type_name))

end KiddouList


instance {eps alpha : Type} [DecidableEq eps] [DecidableEq alpha] :
    DecidableEq (Except eps alpha) := fun x y =>
  match x, y with
  | .ok a, .ok b =>
      if h : a = b then .isTrue (h ▸ rfl)
      else .isFalse (fun hc => h (Except.ok.inj hc))
  | .error a, .error b =>
      if h : a = b then .isTrue (h ▸ rfl)
      else .isFalse (fun hc => h (Except.error.inj hc))
  | .ok _, .error _ => .isFalse (fun hc => Except.noConfusion hc)
  | .error _, .ok _ => .isFalse (fun hc => Except.noConfusion hc)

/-! ## A generic state-plus-abort monad for the embedding

Each source component threads mutable state (the scanner/parser/interpreter
object and the error handler) and may abort with an exception.  Mutations made
before an abort persist, exactly as in Python, so the result pairs an Except
with the final state. -/

def StEx (sigma eps alpha : Type) : Type := sigma → Except eps alpha × sigma

instance : Monad (StEx sigma eps) where
  pure a := fun s => (.ok a, s)
  bind x f := fun s =>
    match x s with
    | (.ok a, s') => f a s'
    | (.error e, s') => (.error e, s')

namespace StEx

def throw (e : eps) : StEx sigma eps alpha := fun s => (.error e, s)

def get : StEx sigma eps sigma := fun s => (.ok s, s)

def modify (f : sigma → sigma) : StEx sigma eps Unit := fun s => (.ok (), f s)

/-- Run the body; then run the finalizer whatever the outcome, re-raising the
body's outcome afterwards (Python try/finally; finalizers here never raise). -/
def withFinally (body : StEx sigma eps alpha) (fin : StEx sigma eps Unit) :
    StEx sigma eps alpha := fun s =>
  match body s with
  | (.ok a, s') => match fin s' with
    | (.ok _, s'') => (.ok a, s'')
    | (.error e, s'') => (.error e, s'')
  | (.error e, s') => ((fin s').1.bind fun _ => .error e, (fin s').2)

end StEx

/-- An unhandled Python exception escaping a component: the process aborts.
fuelExhausted is an artifact of the embedding (bounded recursion depth,
matching Python's bounded interpreter stack); every theorem below supplies
enough fuel that it never fires. -/
inductive PyCrash : Type where
  | indexError
  | keyError
  | noneError
  | zeroDivisionError
  | fuelExhausted
deriving DecidableEq

/-! ## Tokens, from src/token.py and src/token_type.py -/

/-- TokenType from src/token_type.py.  The enum in the source has exactly the
members up to eof; lbracket and rbracket are referenced by src/parser.py but
are absent from src/token_type.py.  Modelled from the spec: the
LBRACKET/RBRACKET members (missing from src/token_type.py). -/
inductive TokenType : Type where
  | lparen | rparen | comma | lbrace | rbrace | arrow
  | plus | minus | star | slash | dblslash | percent | caret
  | equal | bang_equal | less | less_equal | greater | greater_equal
  | and_ | or_ | bang | question | semi | dot
  | assign | re_assign
  | run | con | def_ | arg | use | as_ | typ
  | undef | true_ | false_
  | int_lit | float_lit | string_lit | identifier
  | eof
  | lbracket | rbracket
deriving DecidableEq

/-- Token from src/token.py. -/
structure Token : Type where
  token_type : TokenType
  line : ℕ
  lexeme : String
  literal : Option Value := none
deriving DecidableEq

/-- KiddouError from src/error.py. -/
structure KiddouError : Type where
  message : String
  line : ℕ
  col : Option ℕ
  text : Option String
deriving DecidableEq

/-- A single-quote character, used inside source error messages. -/
def sq : String := "\x27"

/-! ## The scanner, from src/scanner.py -/

/-- is_digit from src/scanner.py. -/
def is_digit (c : Char) : Bool := '0' ≤ c && c ≤ '9'

/-- is_alpha from src/scanner.py. -/
def is_alpha (c : Char) : Bool :=
  ('a' ≤ c && c ≤ 'z') || ('A' ≤ c && c ≤ 'Z') || c = '_'

/-- is_alphanumeric from src/scanner.py. -/
def is_alphanumeric (c : Char) : Bool := is_digit c || is_alpha c

/-- The mutable fields of the Scanner object, plus the error handler's
accumulated error list. -/
structure ScanState : Type where
  source : List Char
  tokens : List Token
  errors : List KiddouError
  line : ℕ
  col : ℕ
  start : ℕ
  current : ℕ
deriving DecidableEq

namespace Scanner

abbrev SM (alpha : Type) : Type := StEx ScanState PyCrash alpha

/-- Scanner._is_at_end. -/
def is_at_end : SM Bool := do
  let s ← StEx.get
  pure (decide (s.current ≥ s.source.length))

/-- Scanner._advance: reads source[current] (IndexError past the end, as in
Python), then increments current and col. -/
def advance : SM Char := fun s =>
  if h : s.current < s.source.length then
    (.ok (s.source.get ⟨s.current, h⟩),
     { s with current := s.current + 1, col := s.col + 1 })
  else (.error .indexError, s)

/-- Scanner._peek. -/
def peek : SM Char := do
  let s ← StEx.get
  if s.current ≥ s.source.length then pure '\x00'
  else pure (s.source.getD s.current '\x00')

/-- Scanner._peek_next. -/
def peek_next : SM Char := do
  let s ← StEx.get
  if s.current + 1 ≥ s.source.length then pure '\x00'
  else pure (s.source.getD (s.current + 1) '\x00')

/-- The lexeme source[start:current]. -/
def lexemeOf (s : ScanState) : String :=
  String.mk ((s.source.drop s.start).take (s.current - s.start))

/-- Scanner._add_token. -/
def add_token (token_type : TokenType) (literal : Option Value := none) :
    SM Unit :=
  StEx.modify fun s =>
    { s with tokens := s.tokens ++
        [{ token_type := token_type, line := s.line, lexeme := lexemeOf s,
           literal := literal }] }

/-- Scanner._newline. -/
def newline : SM Unit := StEx.modify fun s => { s with line := s.line + 1, col := 0 }

/-- Scanner._error: record a KiddouError with the handler and continue. -/
def error (message : String) : SM Unit :=
  StEx.modify fun s =>
    { s with errors := s.errors ++ [⟨message, s.line, some s.col, none⟩] }

/-- Digit-string value, for int() / float() on scanned numerals. -/
def parseDigits (cs : List Char) : ℕ :=
  cs.foldl (fun a c => 10 * a + (c.toNat - 48)) 0

/-- Python float() on a scanned numeral digits[.digits][E[+|-]digits],
as an exact rational. -/
def pyFloatOfChars (cs : List Char) : ℚ :=
  let mantissa := cs.takeWhile (· ≠ 'E')
  let expPart := (cs.dropWhile (· ≠ 'E')).drop 1
  let intPart := mantissa.takeWhile (· ≠ '.')
  let fracPart := (mantissa.dropWhile (· ≠ '.')).drop 1
  let m : ℚ := (parseDigits intPart : ℚ) +
    (parseDigits fracPart : ℚ) / ((10 : ℚ) ^ fracPart.length)
  match expPart with
  | '-' :: ds => m / ((10 : ℚ) ^ parseDigits ds)
  | '+' :: ds => m * ((10 : ℚ) ^ parseDigits ds)
  | ds => m * ((10 : ℚ) ^ parseDigits ds)

/-- Python int() on a scanned digit string. -/
def pyIntOfChars (cs : List Char) : ℤ := (parseDigits cs : ℤ)

/-- The while-loop of Scanner._scan_comment. -/
def scan_comment_loop : ℕ → SM Unit
  | 0 => StEx.throw .fuelExhausted
  | fuel + 1 => do
    let c ← peek
    let e ← is_at_end
    if c ≠ '\n' && !e then
      let _ ← advance
      scan_comment_loop fuel
    else pure ()

/-- Scanner._scan_comment. -/
def scan_comment (fuel : ℕ) : SM Unit := scan_comment_loop fuel

/-- The while-loop of Scanner._scan_string. -/
def scan_string_loop : ℕ → SM Unit
  | 0 => StEx.throw .fuelExhausted
  | fuel + 1 => do
    let c ← peek
    let e ← is_at_end
    if c ≠ '\x22' && !e then do
      if c = '\n' then StEx.modify fun s => { s with line := s.line + 1 }
      let _ ← advance
      scan_string_loop fuel
    else pure ()

/-- Scanner._scan_string: on an unterminated string the source records the
error and then still calls _advance, which raises IndexError at the end of
input. -/
def scan_string (fuel : ℕ) : SM Unit := do
  scan_string_loop fuel
  let e ← is_at_end
  if e then error "unterminated string"
  let _ ← advance
  StEx.modify fun s =>
    { s with tokens := s.tokens ++
        [{ token_type := .string_lit, line := s.line,
           lexeme := lexemeOf s,
           literal := some (.str (String.mk
             (((s.source.drop (s.start + 1)).take (s.current - 1 - (s.start + 1)))))) }] }

/-- A digit-consuming while-loop (used three times by _scan_number); returns
whether it consumed at least one digit. -/
def scan_digits_loop : ℕ → Bool → SM Bool
  | 0, _ => StEx.throw .fuelExhausted
  | fuel + 1, seen => do
    let c ← peek
    if is_digit c then do
      let _ ← advance
      scan_digits_loop fuel true
    else pure seen

/-- Scanner._scan_number. -/
def scan_number (fuel : ℕ) : SM Unit := do
  let _ ← scan_digits_loop fuel false
  let c ← peek
  let c2 ← peek_next
  if c = '.' && is_digit c2 then do
    let _ ← advance
    let _ ← scan_digits_loop fuel false
    scan_number_exp fuel true
  else
    scan_number_exp fuel false
where
  /-- The optional-exponent tail of _scan_number, with is_float so far. -/
  scan_number_exp (fuel : ℕ) (isFloatIn : Bool) : SM Unit := do
    let c ← peek
    if c = 'E' then do
      let _ ← advance
      let csign ← peek
      if csign = '+' || csign = '-' then do
        let _ ← advance
      let has_exponent ← scan_digits_loop fuel false
      if !has_exponent then do
        let s ← StEx.get
        let literal := (s.source.drop s.start).take (s.current - s.start)
        error ("invalid float " ++ sq ++ String.mk literal ++ sq)
        add_token .float_lit (some (.float (.finite
          (pyFloatOfChars (literal.takeWhile (· ≠ 'E'))))))
      else do
        let s ← StEx.get
        let literal := (s.source.drop s.start).take (s.current - s.start)
        add_token .float_lit (some (.float (.finite (pyFloatOfChars literal))))
    else do
      let s ← StEx.get
      let literal := (s.source.drop s.start).take (s.current - s.start)
      if isFloatIn then
        add_token .float_lit (some (.float (.finite (pyFloatOfChars literal))))
      else
        add_token .int_lit (some (.int (pyIntOfChars literal)))

/-- The identifier while-loop of Scanner._scan_identifier. -/
def scan_identifier_loop : ℕ → SM Unit
  | 0 => StEx.throw .fuelExhausted
  | fuel + 1 => do
    let c ← peek
    if is_alphanumeric c then do
      let _ ← advance
      scan_identifier_loop fuel
    else pure ()

/-- Scanner._scan_identifier, with the reserved_keywords table (only true,
false and undef are reserved in src/scanner.py). -/
def scan_identifier (fuel : ℕ) : SM Unit := do
  scan_identifier_loop fuel
  let s ← StEx.get
  let text := lexemeOf s
  if text = "true" then add_token .true_
  else if text = "false" then add_token .false_
  else if text = "undef" then add_token .undef
  else add_token .identifier

/-- The two_char_tokens table of Scanner.__init__. -/
def two_char_token : Char → Char → Option TokenType
  | '/', '/' => some .dblslash
  | '=', '=' => some .equal
  | '!', '=' => some .bang_equal
  | '<', '=' => some .less_equal
  | '>', '=' => some .greater_equal
  | '&', '&' => some .and_
  | '|', '|' => some .or_
  | _, _ => none

/-- Scanner._scan_token: the one_char_tokens table of Scanner.__init__ is
inlined as the final match (it has no entries for =, :, braces, brackets,
comma or arrow, so those characters fall through to "unknown character"). -/
def scan_token (fuel : ℕ) : SM Unit := do
  let char ← advance
  if is_digit char then scan_number fuel
  else if is_alpha char then scan_identifier fuel
  else do
    let p ← peek
    match two_char_token char p with
    | some tt => do
        let _ ← advance
        add_token tt
    | none =>
      match char with
      | '\x22' => scan_string fuel
      | '#' => scan_comment fuel
      | '(' => add_token .lparen
      | ')' => add_token .rparen
      | '+' => add_token .plus
      | '-' => add_token .minus
      | '*' => add_token .star
      | '/' => add_token .slash
      | '%' => add_token .percent
      | '^' => add_token .caret
      | '<' => add_token .less
      | '>' => add_token .greater
      | '!' => add_token .bang
      | '?' => add_token .question
      | ';' => add_token .semi
      | '.' => add_token .dot
      | ' ' => pure ()
      | '\t' => pure ()
      | '\x0d' => pure ()
      | '\n' => newline
      | '&' => error "use && for logical AND"
      | '|' => error "use || for logical OR"
      | c => error ("unknown character " ++ sq ++ String.mk [c] ++ sq)

/-- The while-loop of Scanner.scan_tokens. -/
def scan_tokens_loop : ℕ → SM Unit
  | 0 => do
    let e ← is_at_end
    if e then pure () else StEx.throw .fuelExhausted
  | fuel + 1 => do
    let e ← is_at_end
    if e then pure ()
    else do
      StEx.modify fun s => { s with start := s.current }
      scan_token (fuel + 1)
      scan_tokens_loop fuel

/-- Scanner.scan_tokens on a source string: runs the scan loop from the
initial scanner state and appends the EOF token.  The result is the token
list and final state, or a crash. -/
def scan_tokens (source : String) : Except PyCrash (List Token) × ScanState :=
  let init : ScanState :=
    { source := source.data, tokens := [], errors := [],
      line := 1, col := 0, start := 0, current := 0 }
  match scan_tokens_loop (source.length + 1) init with
  | (.ok _, s) =>
      let s' := { s with tokens := s.tokens ++
        [{ token_type := .eof, line := s.line, lexeme := "" }] }
      (.ok s'.tokens, s')
  | (.error e, s) => (.error e, s)

end Scanner


/-! ## The AST, from src/expr.py, src/constructor.py and src/stmt.py

src/expr.py in this snapshot defines Binary, Unary, Variable, Literal, Call
and a Block without is_eager, while src/constructor.py defines the
Constructor/Block/Sequence (with is_eager) that the parser and checker
build.  The Index and Attribute expression classes are referenced by
src/parser.py, src/checker.py and src/interpreter.py but their definitions
are absent from src/expr.py; they are modelled from the spec below.  The
embedding uses one unified expression type.

The parser stores token.literal into Literal nodes; for the keyword tokens
true/false/undef the scanner leaves literal as None, so the field is an
Option.  dependent_names is None until the checker fills it. -/

/-- UnaryOp from src/expr.py. -/
inductive UnaryOp : Type where
  | negate
  | not_
deriving DecidableEq

/-- BinaryOp from src/expr.py. -/
inductive BinaryOp : Type where
  | add | subtract | multiply | divide | idivide | modulus | power
  | equal | not_equal | less | less_equal | greater | greater_equal
  | and_ | or_ | domain | piece
deriving DecidableEq

mutual
/-- Expressions.  var is Variable (a Lean keyword); index and attribute are
modelled from the spec: Index(container, index) and Attribute(obj, name)
expression nodes (missing from src/expr.py, used by parser, checker and
interpreter). -/
inductive Expr : Type where
  | binary (line : ℕ) (left : Expr) (operator : BinaryOp) (right : Expr)
  | unary (line : ℕ) (operator : UnaryOp) (expr : Expr)
  | var (line : ℕ) (name : String)
  | literal (line : ℕ) (value : Option Value)
  | call (line : ℕ) (callee : Expr) (arguments : List Expr)
  | index (line : ℕ) (container : Expr) (idx : Expr)
  | attribute (line : ℕ) (obj : Expr) (name : String)
  | block (line : ℕ) (is_eager : Bool) (stmts : List Stmt)
      (expr : Option Expr) (dependent_names : Option (Finset String))
  | sequence (line : ℕ) (is_eager : Bool) (elements : List Expr)

/-- Statements, from src/stmt.py. -/
inductive Stmt : Type where
  | con (line_start line_end : ℕ) (name : String) (expr : Expr)
  | run (line_start line_end : ℕ) (receiver : Option Expr) (expr : Expr)
      (reassign : Bool)
end

/-! ## The parser, from src/parser.py 

Every parse function takes a fuel argument and consumes one unit per call;
recursion is structural on the fuel.  ParseError is the exception of
src/parser.py; pythonTypeError models the TypeError raised by the two
one-argument self._error calls in _synchronize; noneCrash models a None
where the source would crash on it; fuelExhausted is the embedding's
bounded recursion depth. -/

/-- is_valid_receiver from src/parser.py: Variable, Index or Attribute. -/
def is_valid_receiver : Expr → Bool
  | .var _ _ => true
  | .index _ _ _ => true
  | .attribute _ _ _ => true
  | _ => false

/-- Failures that abort a parse: the ParseError exception of the source, or
an unhandled Python-level error. -/
inductive PFail : Type where
  | parseError
  | pythonTypeError
  | indexError
  | noneCrash
  | fuelExhausted
deriving DecidableEq

/-- The mutable fields of the Parser object plus the error handler list. -/
structure ParseState : Type where
  tokens : List Token
  errors : List KiddouError
  current : ℕ
deriving DecidableEq

namespace Parser

abbrev PM (alpha : Type) : Type := StEx ParseState PFail alpha

/-- try/except ParseError. -/
def tryCatchP (body : PM alpha) (handler : PM alpha) : PM alpha := fun s =>
  match body s with
  | (.ok a, s') => (.ok a, s')
  | (.error .parseError, s') => handler s'
  | (.error e, s') => (.error e, s')

/-- Parser._peek: tokens[current] (IndexError on an empty token list). -/
def peek : PM Token := fun s =>
  if h : s.current < s.tokens.length then (.ok (s.tokens.get ⟨s.current, h⟩), s)
  else (.error .indexError, s)

/-- Parser._previous: tokens[current - 1]; in Python, current = 0 wraps to
the last token. -/
def previous : PM Token := fun s =>
  if h : s.current - 1 < s.tokens.length then
    (if s.current = 0 then
      (match s.tokens.getLast? with
       | some t => (.ok t, s)
       | none => (.error .indexError, s))
     else (.ok (s.tokens.get ⟨s.current - 1, h⟩), s))
  else (.error .indexError, s)

/-- Parser._is_at_end. -/
def is_at_end : PM Bool := do
  let t ← peek
  pure (t.token_type = .eof)

/-- Parser._check. -/
def check (token_type : TokenType) : PM Bool := do
  let e ← is_at_end
  if e then pure false
  else do
    let t ← peek
    pure (t.token_type = token_type)

/-- Parser._advance. -/
def advance : PM Token := do
  let e ← is_at_end
  if !e then StEx.modify fun s => { s with current := s.current + 1 }
  previous

/-- Parser._match over a list of token types. -/
def match_ : List TokenType → PM Bool
  | [] => pure false
  | tt :: rest => do
    let c ← check tt
    if c then do
      let _ ← advance
      pure true
    else match_ rest

/-- Parser._error: records the error with the handler and returns (the
caller decides whether to raise the resulting ParseError). -/
def error_ (token : Token) (message : String) : PM Unit :=
  StEx.modify fun s =>
    { s with errors := s.errors ++ [⟨message, token.line, none, none⟩] }

/-- raise self._error(token, message). -/
def raiseError (token : Token) (message : String) : PM alpha := do
  error_ token message
  StEx.throw .parseError

/-- Parser._consume. -/
def consume (token_type : TokenType) (message : String) : PM Token := do
  let c ← check token_type
  if c then advance
  else do
    let t ← peek
    raiseError t message

/-- The assignment_token_types list of Parser.__init__. -/
def assignment_token_types : List TokenType := [.assign, .re_assign]

/-- The statement_boundary_token_types set of Parser.__init__. -/
def statement_boundary_token_types : List TokenType :=
  [.def_, .typ, .con, .arg, .run, .use, .arrow]

/-- The constructor_boundary_token_types set of Parser.__init__. -/
def constructor_boundary_token_types : List TokenType := [.rbrace, .rbracket]

/-- The token_type_to_binary_op dict of Parser.__init__ (dict.get). -/
def token_type_to_binary_op : TokenType → Option BinaryOp
  | .semi => some .piece
  | .question => some .domain
  | .or_ => some .or_
  | .and_ => some .and_
  | .equal => some .equal
  | .bang_equal => some .not_equal
  | .less => some .less
  | .less_equal => some .less_equal
  | .greater => some .greater
  | .greater_equal => some .greater_equal
  | .plus => some .add
  | .minus => some .subtract
  | .star => some .multiply
  | .slash => some .divide
  | .dblslash => some .idivide
  | .percent => some .modulus
  | .caret => some .power
  | _ => none

/-- The token_type_unary_op dict of Parser.__init__. -/
def token_type_unary_op : TokenType → Option UnaryOp
  | .minus => some .negate
  | .bang => some .not_
  | _ => none

mutual

/-- The statement loop of Parser.parse. -/
def parse_loop : ℕ → PM (List Stmt)
  | 0 => StEx.throw .fuelExhausted
  | fuel + 1 => do
    let e ← is_at_end
    if e then pure []
    else do
      let stmt ← parse_statement fuel
      let rest ← parse_loop fuel
      match stmt with
      | some st => pure (st :: rest)
      | none => pure rest

/-- Parser._parse_statement, with the stmt_keywords dispatch of
Parser.__init__ inlined in the match. -/
def parse_statement : ℕ → PM (Option Stmt)
  | 0 => StEx.throw .fuelExhausted
  | fuel + 1 =>
    tryCatchP
      (do
        let token ← advance
        match token.token_type with
        | .con => do
            let st ← parse_con fuel
            pure (some st)
        | .run => do
            let st ← parse_run fuel
            pure (some st)
        | _ => raiseError token "Expected a statement header keyword.")
      (do
        synchronize_loop fuel
        pure none)

/-- Parser._parse_con. -/
def parse_con : ℕ → PM Stmt
  | 0 => StEx.throw .fuelExhausted
  | fuel + 1 => do
    let prev ← previous
    let line_start := prev.line
    let identifier ← consume .identifier "Expected identifier."
    let assignment ← peek
    if !(assignment_token_types.contains assignment.token_type) then
      raiseError assignment "Expected assignment."
    else do
      let _ ← advance
      if assignment.token_type ≠ .assign then
        error_ assignment "Reassignment not allowed."
      let expr ← parse_expression fuel
      let last ← previous
      pure (.con line_start last.line identifier.lexeme expr)

/-- Parser._parse_run. -/
def parse_run : ℕ → PM Stmt
  | 0 => StEx.throw .fuelExhausted
  | fuel + 1 => do
    let prev ← previous
    let line_start := prev.line
    let expr ← parse_expression fuel
    let m ← match_ assignment_token_types
    if m then do
      if is_valid_receiver expr then do
        let assignment ← previous
        let rhs ← parse_expression fuel
        let last ← previous
        pure (.run line_start last.line (some expr) rhs
          (assignment.token_type ≠ .assign))
      else do
        let p ← previous
        error_ p "Invalid assignment target."
        let _ ← parse_expression fuel
        let last ← previous
        pure (.run line_start last.line none expr false)
    else do
      let last ← previous
      pure (.run line_start last.line none expr false)

/-- Parser._synchronize.  The two single-argument self._error calls in the
source pass the message where the token parameter is expected and omit the
message argument, a Python TypeError; it is not a ParseError, so it
escapes the enclosing try. -/
def synchronize_loop : ℕ → PM Unit
  | 0 => StEx.throw .fuelExhausted
  | fuel + 1 => do
    let e ← is_at_end
    if e then pure ()
    else do
      let p ← peek
      if statement_boundary_token_types.contains p.token_type then pure ()
      else if constructor_boundary_token_types.contains p.token_type then pure ()
      else do
        tryCatchP
          (do
            let m ← match_ [.lbrace]
            if m then do
              let _ ← parse_constructor fuel false
              let m2 ← match_ [.rbracket]
              if m2 then StEx.throw .pythonTypeError
              else do
                let _ ← consume .rbrace
                  ("Expected closing " ++ sq ++ "\x7d" ++ sq ++ ".")
                pure ()
            else do
              let m3 ← match_ [.lbracket]
              if m3 then do
                let _ ← parse_constructor fuel true
                let m4 ← match_ [.rbrace]
                if m4 then StEx.throw .pythonTypeError
                else do
                  let _ ← consume .rbracket
                    ("Expected closing " ++ sq ++ "]" ++ sq ++ ".")
                  pure ()
              else do
                let _ ← advance
                pure ())
          (pure ())
        synchronize_loop fuel

/-- Parser._parse_expression. -/
def parse_expression : ℕ → PM Expr
  | 0 => StEx.throw .fuelExhausted
  | fuel + 1 => do
    let e ← parse_piece fuel
    binary_loop fuel [.semi] e

/-- Parser._parse_piece. -/
def parse_piece : ℕ → PM Expr
  | 0 => StEx.throw .fuelExhausted
  | fuel + 1 => do
    let e ← parse_logical_or fuel
    binary_loop fuel [.question] e

/-- Parser._parse_logical_or. -/
def parse_logical_or : ℕ → PM Expr
  | 0 => StEx.throw .fuelExhausted
  | fuel + 1 => do
    let e ← parse_logical_and fuel
    binary_loop fuel [.or_] e

/-- Parser._parse_logical_and. -/
def parse_logical_and : ℕ → PM Expr
  | 0 => StEx.throw .fuelExhausted
  | fuel + 1 => do
    let e ← parse_equality fuel
    binary_loop fuel [.and_] e

/-- Parser._parse_equality. -/
def parse_equality : ℕ → PM Expr
  | 0 => StEx.throw .fuelExhausted
  | fuel + 1 => do
    let e ← parse_comparison fuel
    binary_loop fuel [.equal, .bang_equal] e

/-- Parser._parse_comparison. -/
def parse_comparison : ℕ → PM Expr
  | 0 => StEx.throw .fuelExhausted
  | fuel + 1 => do
    let e ← parse_sum fuel
    binary_loop fuel [.less, .less_equal, .greater, .greater_equal] e

/-- Parser._parse_sum. -/
def parse_sum : ℕ → PM Expr
  | 0 => StEx.throw .fuelExhausted
  | fuel + 1 => do
    let e ← parse_term fuel
    binary_loop fuel [.plus, .minus] e

/-- Parser._parse_term. -/
def parse_term : ℕ → PM Expr
  | 0 => StEx.throw .fuelExhausted
  | fuel + 1 => do
    let e ← parse_factor fuel
    binary_loop fuel [.star, .slash, .dblslash, .percent] e

/-- The while-loop of Parser._left_assoc_binary.  The element parser at each
precedence level is the one the level below (the caller passes the partial
result along).  A matched token type missing from the binary-op dict would
store None as the operator; that cannot happen for the token lists used. -/
def binary_loop : ℕ → List TokenType → Expr → PM Expr
  | 0, _, _ => StEx.throw .fuelExhausted
  | fuel + 1, token_types, expr => do
    let m ← match_ token_types
    if m then do
      let token ← previous
      match token_type_to_binary_op token.token_type with
      | none => StEx.throw .noneCrash
      | some operator => do
        let right ← element_of fuel token_types
        binary_loop fuel token_types (.binary token.line expr operator right)
    else pure expr

/-- Dispatch from a level's token list back to its element parser,
mirroring the element argument each level passes to _left_assoc_binary. -/
def element_of : ℕ → List TokenType → PM Expr
  | 0, _ => StEx.throw .fuelExhausted
  | fuel + 1, token_types =>
    match token_types with
    | [.semi] => parse_piece fuel
    | [.question] => parse_logical_or fuel
    | [.or_] => parse_logical_and fuel
    | [.and_] => parse_equality fuel
    | [.equal, .bang_equal] => parse_comparison fuel
    | [.less, .less_equal, .greater, .greater_equal] => parse_sum fuel
    | [.plus, .minus] => parse_term fuel
    | [.star, .slash, .dblslash, .percent] => parse_factor fuel
    | _ => StEx.throw .noneCrash

/-- Parser._parse_factor. -/
def parse_factor : ℕ → PM Expr
  | 0 => StEx.throw .fuelExhausted
  | fuel + 1 => do
    let m ← match_ [.bang, .minus]
    if m then do
      let token ← previous
      match token_type_unary_op token.token_type with
      | none => StEx.throw .noneCrash
      | some operator => do
        let right ← parse_factor fuel
        pure (.unary token.line operator right)
    else do
      let expr ← parse_call fuel
      let m2 ← match_ [.caret]
      if m2 then do
        let token ← previous
        match token_type_to_binary_op token.token_type with
        | none => StEx.throw .noneCrash
        | some operator => do
          let right ← parse_factor fuel
          pure (.binary token.line expr operator right)
      else pure expr

/-- Parser._parse_call. -/
def parse_call : ℕ → PM Expr
  | 0 => StEx.throw .fuelExhausted
  | fuel + 1 => do
    let expr ← parse_primary fuel
    parse_call_loop fuel expr

/-- The postfix while-loop of Parser._parse_call. -/
def parse_call_loop : ℕ → Expr → PM Expr
  | 0, _ => StEx.throw .fuelExhausted
  | fuel + 1, expr => do
    let m ← match_ [.lparen]
    if m then do
      let c ← check .rparen
      let arguments ← if c then pure [] else parse_arguments fuel
      let rparen ← consume .rparen
        ("Expected closing " ++ sq ++ ")" ++ sq ++ " after arguments.")
      parse_call_loop fuel (.call rparen.line expr arguments)
    else do
      let m2 ← match_ [.lbracket]
      if m2 then do
        let idx ← parse_expression fuel
        let rbracket ← consume .rbracket
          ("Expected closing " ++ sq ++ "]" ++ sq ++ " after index.")
        parse_call_loop fuel (.index rbracket.line expr idx)
      else do
        let m3 ← match_ [.dot]
        if m3 then do
          let name ← consume .identifier
            ("Expected attribute name after " ++ sq ++ "." ++ sq ++ ".")
          parse_call_loop fuel (.attribute name.line expr name.lexeme)
        else pure expr

/-- Parser._parse_arguments. -/
def parse_arguments : ℕ → PM (List Expr)
  | 0 => StEx.throw .fuelExhausted
  | fuel + 1 => do
    let first ← parse_expression fuel
    parse_arguments_loop fuel [first]

/-- The while-loop of Parser._parse_arguments: on each comma, an error is
recorded when the list already holds more than 255 expressions, and the
next argument is appended regardless. -/
def parse_arguments_loop : ℕ → List Expr → PM (List Expr)
  | 0, _ => StEx.throw .fuelExhausted
  | fuel + 1, result => do
    let m ← match_ [.comma]
    if m then do
      if result.length > 255 then do
        let p ← peek
        error_ p "Can't pass more than 255 arguments."
      let nxt ← parse_expression fuel
      parse_arguments_loop fuel (result ++ [nxt])
    else pure result

/-- Parser._parse_primary. -/
def parse_primary : ℕ → PM Expr
  | 0 => StEx.throw .fuelExhausted
  | fuel + 1 => do
    let m ← match_ [.undef, .true_, .false_, .int_lit, .float_lit, .string_lit]
    if m then do
      let token ← previous
      pure (.literal token.line token.literal)
    else do
      let mi ← match_ [.identifier]
      if mi then do
        let token ← previous
        pure (.var token.line token.lexeme)
      else do
        let mp ← match_ [.lparen]
        if mp then do
          let expr ← parse_expression fuel
          let _ ← consume .rparen ("Expected closing " ++ sq ++ ")" ++ sq ++ ".")
          pure expr
        else do
          let mb ← match_ [.lbrace]
          if mb then do
            let constructor ← parse_constructor fuel false
            let mx ← match_ [.rbracket]
            if mx then do
              let p ← previous
              raiseError p ("Closing " ++ sq ++ "]" ++ sq ++
                " does not match opening " ++ sq ++ "\x7b" ++ sq ++ ".")
            else do
              let _ ← consume .rbrace
                ("Expected closing " ++ sq ++ "\x7d" ++ sq ++ ".")
              pure constructor
          else do
            let mk ← match_ [.lbracket]
            if mk then do
              let constructor ← parse_constructor fuel true
              let my ← match_ [.rbrace]
              if my then do
                let p ← previous
                raiseError p ("Closing " ++ sq ++ "\x7d" ++ sq ++
                  " does not match opening " ++ sq ++ "[" ++ sq ++ ".")
              else do
                let _ ← consume .rbracket
                  ("Expected closing " ++ sq ++ "]" ++ sq ++ ".")
                pure constructor
            else do
              let t ← peek
              raiseError t "Expected expression."

/-- Parser._parse_constructor. -/
def parse_constructor : ℕ → Bool → PM Expr
  | 0, _ => StEx.throw .fuelExhausted
  | fuel + 1, is_eager => do
    let prev ← previous
    let line := prev.line
    let p ← peek
    if constructor_boundary_token_types.contains p.token_type then do
      error_ prev "Empty constructor not allowed."
      pure (.block line is_eager [] none none)
    else if statement_boundary_token_types.contains p.token_type then
      parse_block fuel is_eager line
    else do
      let expr ← parse_expression fuel
      parse_sequence fuel is_eager line expr

/-- Parser._parse_block. -/
def parse_block : ℕ → Bool → ℕ → PM Expr
  | 0, _, _ => StEx.throw .fuelExhausted
  | fuel + 1, is_eager, line => do
    let stmts ← parse_block_stmts_loop fuel []
    let e ← is_at_end
    let c1 ← check .rbrace
    let c2 ← check .rbracket
    if e || c1 || c2 then pure (.block line is_eager stmts none none)
    else do
      let has_arrow ← match_ [.arrow]
      let token ← peek
      let expr ← parse_expression fuel
      if !has_arrow && !stmts.isEmpty then
        error_ token ("Expected " ++ sq ++ "->" ++ sq ++ " before expression.")
      pure (.block line is_eager stmts (some expr) none)

/-- The statement while-loop of Parser._parse_block. -/
def parse_block_stmts_loop : ℕ → List Stmt → PM (List Stmt)
  | 0, _ => StEx.throw .fuelExhausted
  | fuel + 1, stmts => do
    let c1 ← check .rbrace
    let c2 ← check .rbracket
    let c3 ← check .arrow
    let e ← is_at_end
    if !(c1 || c2 || c3) && !e then do
      let stmt ← parse_statement fuel
      match stmt with
      | some st => parse_block_stmts_loop fuel (stmts ++ [st])
      | none => parse_block_stmts_loop fuel stmts
    else pure stmts

/-- Parser._parse_sequence. -/
def parse_sequence : ℕ → Bool → ℕ → Expr → PM Expr
  | 0, _, _, _ => StEx.throw .fuelExhausted
  | fuel + 1, is_eager, line, first_element =>
    parse_sequence_loop fuel is_eager line [first_element]

/-- The while-loop of Parser._parse_sequence. -/
def parse_sequence_loop : ℕ → Bool → ℕ → List Expr → PM Expr
  | 0, _, _, _ => StEx.throw .fuelExhausted
  | fuel + 1, is_eager, line, elements => do
    let m ← match_ [.comma]
    if m then do
      let nxt ← parse_expression fuel
      parse_sequence_loop fuel is_eager line (elements ++ [nxt])
    else pure (.sequence line is_eager elements)

end

/-- Parser.parse on a token list, from the initial parser state, with the
given fuel. -/
def parse (fuel : ℕ) (tokens : List Token) :
    Except PFail (List Stmt) × ParseState :=
  parse_loop fuel { tokens := tokens, errors := [], current := 0 }

end Parser


/-! ## Concrete token fixtures used by the parser theorems -/

/-- An INT_LIT token for the literal 1. -/
def intTok : Token := ⟨.int_lit, 1, "1", some (.int 1)⟩

/-- A COMMA token. -/
def commaTok : Token := ⟨.comma, 1, ",", none⟩

/-- The token tail seen by the argument loop mid-call: one more
comma-separated argument, then the closing paren. -/
def argTailToks : List Token :=
  [commaTok, intTok, ⟨.rparen, 1, ")", none⟩, ⟨.eof, 1, "", none⟩]

/-- n comma-separated INT_LIT argument tokens. -/
def argToks : ℕ → List Token
  | 0 => []
  | 1 => [intTok]
  | n + 2 => intTok :: commaTok :: argToks (n + 1)

/-- The token list of the call expression f(1, 1, ..., 1) with n arguments. -/
def callToks (n : ℕ) : List Token :=
  ⟨.identifier, 1, "f", none⟩ :: ⟨.lparen, 1, "(", none⟩ :: argToks n ++
    [⟨.rparen, 1, ")", none⟩, ⟨.eof, 1, "", none⟩]

/-- The argument count of a parsed call expression. -/
def call_arg_count : Except PFail Expr → Option ℕ
  | .ok (.call _ _ args) => some args.length
  | _ => none

/-- The length of a parsed argument list. -/
def arg_list_count : Except PFail (List Expr) → Option ℕ
  | .ok args => some args.length
  | .error _ => none

/-- Parse the call expression f(1, ..., 1) with n arguments and report the
argument count together with the recorded errors. -/
def parse_call_summary (n : ℕ) : Option ℕ × List KiddouError :=
  match Parser.parse_expression 300 { tokens := callToks n, errors := [], current := 0 } with
  | (r, s) => (call_arg_count r, s.errors)

/-- Run the argument while-loop with k argument expressions already
accumulated, on the remaining tokens ", 1)". -/
def arguments_loop_at (k : ℕ) : Except PFail (List Expr) × ParseState :=
  Parser.parse_arguments_loop 300 (List.replicate k (.literal 1 (some (.int 1))))
    { tokens := argTailToks, errors := [], current := 0 }


/-! ## Python float arithmetic on the PyFloat model

Finite arithmetic is exact (IEEE rounding is not modelled; no claim settled
here depends on rounded float results); the special values follow IEEE-754
as Python exposes them.  Non-integer float powers are irrational in general
and are modelled as nan (no claim touches them). -/

namespace PyFloat

/-- Python float equality (nan compares unequal to everything). -/
def pyEq : PyFloat → PyFloat → Bool
  | .finite a, .finite b => a = b
  | .inf, .inf => true
  | .neginf, .neginf => true
  | _, _ => false

/-- Python float strict order (false on any nan). -/
def pyLt : PyFloat → PyFloat → Bool
  | .finite a, .finite b => a < b
  | .finite _, .inf => true
  | .neginf, .finite _ => true
  | .neginf, .inf => true
  | _, _ => false

/-- Python float non-strict order (false on any nan). -/
def pyLe (a b : PyFloat) : Bool := pyLt a b || pyEq a b

def sign : PyFloat → Int
  | .finite q => if q < 0 then -1 else if 0 < q then 1 else 0
  | .inf => 1
  | .neginf => -1
  | .nan => 0

def isNan : PyFloat → Bool
  | .nan => true
  | _ => false

def pyAdd : PyFloat → PyFloat → PyFloat
  | .finite a, .finite b => .finite (a + b)
  | .nan, _ => .nan
  | _, .nan => .nan
  | .inf, .neginf => .nan
  | .neginf, .inf => .nan
  | .inf, _ => .inf
  | _, .inf => .inf
  | .neginf, _ => .neginf
  | _, .neginf => .neginf

def neg : PyFloat → PyFloat
  | .finite q => .finite (-q)
  | .inf => .neginf
  | .neginf => .inf
  | .nan => .nan

def pySub (a b : PyFloat) : PyFloat := pyAdd a (neg b)

def pyMul : PyFloat → PyFloat → PyFloat
  | .finite a, .finite b => .finite (a * b)
  | .nan, _ => .nan
  | _, .nan => .nan
  | a, b => if sign a * sign b = 0 then .nan
            else if sign a * sign b = 1 then .inf else .neginf

/-- Python float division for a nonzero divisor (the divisor-zero case
raises ZeroDivisionError and is handled by the callers). -/
def pyDiv : PyFloat → PyFloat → PyFloat
  | .finite a, .finite b => .finite (a / b)
  | .nan, _ => .nan
  | _, .nan => .nan
  | .finite _, .inf => .finite 0
  | .finite _, .neginf => .finite 0
  | a, .finite b => if sign a * (if b < 0 then -1 else 1) = 1 then .inf else .neginf
  | _, _ => .nan

/-- Python float floor division by an infinity (a CPython quirk: the result
is -1.0 when the signs differ and the numerator is nonzero, else 0.0). -/
def floorDivByInf (a : PyFloat) (bNeg : Bool) : ℤ :=
  if sign a = 0 then 0
  else if (sign a = -1) ≠ bNeg then -1 else 0

/-- Python float modulo for a nonzero divisor: result takes the divisor's
sign; fmod against an infinite divisor keeps a finite numerator of the same
sign and returns the divisor otherwise. -/
def pyMod : PyFloat → PyFloat → PyFloat
  | .finite a, .finite b => .finite (a - b * ⌊a / b⌋)
  | .nan, _ => .nan
  | _, .nan => .nan
  | .inf, _ => .nan
  | .neginf, _ => .nan
  | .finite a, b => if a = 0 || (sign (.finite a) = sign b) then .finite a else b

/-- math.pow on the model: ValueError (negative base, fractional exponent)
is mapped to nan by the caller; integer exponents are exact; fractional
exponents of positive bases are irrational in general and modelled as nan. -/
def pyPow : PyFloat → PyFloat → Option PyFloat
  | .finite a, .finite b =>
      if a = 0 ∧ b < 0 then none
      else if b.den = 1 then some (.finite (a ^ b.num))
      else if a < 0 then none
      else some .nan
  | .nan, .finite b => if b = 0 then some (.finite 1) else some .nan
  | .nan, _ => some .nan
  | _, .nan => some .nan
  | .finite a, .inf =>
      if a = 1 ∨ a = -1 then some (.finite 1)
      else if -1 < a ∧ a < 1 then some (.finite 0) else some .inf
  | .finite a, .neginf =>
      if a = 1 ∨ a = -1 then some (.finite 1)
      else if -1 < a ∧ a < 1 then some .inf else some (.finite 0)
  | .inf, .finite b => if b = 0 then some (.finite 1)
      else if b < 0 then some (.finite 0) else some .inf
  | .neginf, .finite b => if b = 0 then some (.finite 1)
      else if b < 0 then some (.finite 0)
      else if b.den = 1 ∧ b.num % 2 = 1 then some .neginf else some .inf
  | .inf, _ => some .inf
  | .neginf, .inf => some .inf
  | .neginf, .neginf => some (.finite 0)

end PyFloat

/-- The numeric payload of a Value under Python comparison: bools are the
integers 0 and 1, ints are exact, floats are the PyFloat model.  None for
non-numeric payloads. -/
def numPayload : Value → Option PyFloat
  | .bool b => some (.finite (if b then 1 else 0))
  | .int n => some (.finite (n : ℚ))
  | .float f => some f
  | _ => none

/-- Whether the value's Python class carries a .val payload field (the
dataclasses Bool, Int, Float, String); accessing .val on any other value
raises AttributeError. -/
def hasVal : Value → Bool
  | .bool _ => true
  | .int _ => true
  | .float _ => true
  | .str _ => true
  | _ => false

/-- Python == on the .val payloads: numeric kinds (Bool, Int, Float)
compare numerically across kinds; strings compare as strings; a string and
a number compare unequal.  Error on a payload-less value. -/
def pyValEq (l r : Value) : Except PyCrash Bool :=
  if !hasVal l || !hasVal r then .error .keyError
  else
    match numPayload l, numPayload r with
    | some a, some b => .ok (PyFloat.pyEq a b)
    | _, _ =>
      match l, r with
      | .str a, .str b => .ok (a = b)
      | _, _ => .ok false

/-- The float payload of a numeric (Int or Float) value, as used by the
arithmetic handlers after their is_number checks. -/
def numF : Value → PyFloat
  | .int n => .finite (n : ℚ)
  | .float f => f
  | _ => .nan

/-! ## The environment, from src/environment.py

Environments and references are mutable objects shared by aliasing in the
source; the embedding stores them in heaps inside the interpreter state.
A Python dict (insertion-ordered, unique keys) of name-to-reference is a
list of pairs of name and reference index. -/

/-- Reference from src/environment.py. -/
structure Reference : Type where
  val : Value
  mutable : Bool := false
deriving DecidableEq

/-- dict lookup (keys are unique). -/
def dictGet : List (String × ℕ) → String → Option ℕ
  | [], _ => none
  | kv :: rest, k => if kv.1 = k then some kv.2 else dictGet rest k

/-- dict store: replace the value under an existing key in place, else
append the new entry (Python dict insertion order). -/
def dictSet : List (String × ℕ) → String → ℕ → List (String × ℕ)
  | [], k, v => [(k, v)]
  | kv :: rest, k, v =>
    if kv.1 = k then (k, v) :: rest else kv :: dictSet rest k v

/-- dict.update: store every entry of the second dict into the first. -/
def dictUpdate (d : List (String × ℕ)) (entries : List (String × ℕ)) :
    List (String × ℕ) :=
  entries.foldl (fun acc kv => dictSet acc kv.1 kv.2) d

/-- The two dicts of an Environment: env is the captured map passed to the
constructor, locals the names introduced here. -/
structure EnvData : Type where
  env : List (String × ℕ)
  locals : List (String × ℕ)
deriving DecidableEq

/-- Environment.keys: env keys then locals keys (a set of names). -/
def EnvData.keys (e : EnvData) : Finset String :=
  (e.env.map (fun kv => kv.1)).toFinset ∪ (e.locals.map (fun kv => kv.1)).toFinset

/-- The body (statements and optional tail expression) and current
environment of a KiddouBlock value.  The env field is reassigned at the
end of every call. -/
structure BlockData : Type where
  stmts : List Stmt
  expr : Option Expr
  envRef : ℕ
  name : Option String := none

/-- The interpreter state: the heaps of mutable objects (references,
environments, blocks, lists) and self.env, the current environment. -/
structure State : Type where
  refs : List Reference
  envs : List EnvData
  blocks : List BlockData
  lists : List (List Value)
  env : ℕ

/-- Failures that abort evaluation: a RuntimeException in flight (before
the nearest _evaluate_expr / _execute_stmt frame converts it), a converted
KiddouError carrying the frame's line, or an unhandled Python-level error. -/
inductive Failure : Type where
  | rexc (exc : RuntimeException)
  | kiddou (exc : RuntimeException) (line : ℕ)
  | crash (c : PyCrash)
deriving DecidableEq

namespace Interp

abbrev IM (alpha : Type) : Type := StEx State Failure alpha

/-- raise a RuntimeException. -/
def throwR (e : RuntimeException) : IM alpha := StEx.throw (.rexc e)

/-- An unhandled Python exception (KeyError on a missing handler entry,
TypeError on a None where an object is required, ...). -/
def crash (c : PyCrash) : IM alpha := StEx.throw (.crash c)

def getRef (i : ℕ) : IM Reference := fun s =>
  match s.refs[i]? with
  | some r => (.ok r, s)
  | none => (.error (.crash .indexError), s)

def setRef (i : ℕ) (r : Reference) : IM Unit :=
  StEx.modify fun s => { s with refs := s.refs.set i r }

def allocRef (r : Reference) : IM ℕ := fun s =>
  (.ok s.refs.length, { s with refs := s.refs ++ [r] })

def getEnvData (i : ℕ) : IM EnvData := fun s =>
  match s.envs[i]? with
  | some e => (.ok e, s)
  | none => (.error (.crash .indexError), s)

def setEnvData (i : ℕ) (e : EnvData) : IM Unit :=
  StEx.modify fun s => { s with envs := s.envs.set i e }

def allocEnv (e : EnvData) : IM ℕ := fun s =>
  (.ok s.envs.length, { s with envs := s.envs ++ [e] })

def getBlockData (i : ℕ) : IM BlockData := fun s =>
  match s.blocks[i]? with
  | some b => (.ok b, s)
  | none => (.error (.crash .indexError), s)

def allocBlock (b : BlockData) : IM ℕ := fun s =>
  (.ok s.blocks.length, { s with blocks := s.blocks ++ [b] })

def getListData (i : ℕ) : IM (List Value) := fun s =>
  match s.lists[i]? with
  | some l => (.ok l, s)
  | none => (.error (.crash .indexError), s)

/-- Environment.bind on the environment with index envId: allocate a fresh
Reference and store it under the name in locals. -/
def envBind (envId : ℕ) (name : String) (value : Value)
    (mutable : Bool := false) : IM Unit := do
  let i ← allocRef ⟨value, mutable⟩
  let e ← getEnvData envId
  setEnvData envId { e with locals := dictSet e.locals name i }

/-- The reference index a name resolves to: locals first, then env. -/
def lookupRefId (e : EnvData) (name : String) : Option ℕ :=
  match dictGet e.locals name with
  | some i => some i
  | none => dictGet e.env name

/-- Environment.overwrite: NameException when unbound, ImmutableException
when the reference is not mutable, else update the reference in place. -/
def envOverwrite (envId : ℕ) (name : String) (value : Value) : IM Unit := do
  let e ← getEnvData envId
  match lookupRefId e name with
  | none => throwR (.nameException ("undefined variable: " ++ name ++ "."))
  | some i => do
    let r ← getRef i
    if !r.mutable then
      throwR (.immutableException ("immutable variable: " ++ name ++ "."))
    else setRef i { r with val := value }

/-- Environment.overwrite_local: as overwrite but searching locals only. -/
def envOverwriteLocal (envId : ℕ) (name : String) (value : Value) : IM Unit := do
  let e ← getEnvData envId
  match dictGet e.locals name with
  | none => throwR (.nameException ("undefined variable: " ++ name ++ "."))
  | some i => do
    let r ← getRef i
    if !r.mutable then
      throwR (.immutableException ("immutable variable: " ++ name ++ "."))
    else setRef i { r with val := value }

/-- Environment.get. -/
def envGet (envId : ℕ) (name : String) : IM Value := do
  let e ← getEnvData envId
  match lookupRefId e name with
  | none => throwR (.nameException ("undefined variable: " ++ name ++ "."))
  | some i => do
    let r ← getRef i
    pure r.val

/-- Environment.get_local. -/
def envGetLocal (envId : ℕ) (name : String) : IM Value := do
  let e ← getEnvData envId
  match dictGet e.locals name with
  | none => throwR (.nameException ("undefined variable: " ++ name ++ "."))
  | some i => do
    let r ← getRef i
    pure r.val

/-- Environment.copy_retain: a new environment whose captured map is the
retained locals updated with (and overridden by) this environment's
captured map, and whose locals start empty. -/
def copyRetain (envId : ℕ) (names : Finset String) : IM ℕ := do
  let e ← getEnvData envId
  let env_copy := dictUpdate (e.locals.filter (fun kv => kv.1 ∈ names)) e.env
  allocEnv ⟨env_copy, []⟩

end Interp


/-! ## The interpreter, from src/interpreter.py

interpreter.py cannot be imported as written (it imports Attribute and
Block from src/expr.py, which defines neither: expr.py has no Attribute
and its Block differs from the constructor.py Block the parser builds);
each function's logic is nevertheless well defined and is embedded here
over the unified AST.  The expr_handlers table has no entry for Index or
Sequence, so dispatching on those nodes raises KeyError. -/

/-- The source line of an expression. -/
def Expr.line : Expr → ℕ
  | .binary line _ _ _ => line
  | .unary line _ _ => line
  | .var line _ => line
  | .literal line _ => line
  | .call line _ _ => line
  | .index line _ _ => line
  | .attribute line _ _ => line
  | .block line _ _ _ _ => line
  | .sequence line _ _ => line

/-- The starting source line of a statement. -/
def Stmt.line_start : Stmt → ℕ
  | .con line_start _ _ _ => line_start
  | .run line_start _ _ _ _ => line_start

/-- isinstance(value, Callable): Function instances, i.e. library
functions and blocks. -/
def isCallable : Value → Bool
  | .libfunc _ => true
  | .block _ => true
  | _ => false

/-- isinstance(value, Object) with the Object imported by interpreter.py
from src/object.py: only KiddouModule extends that class.  KiddouBlock
extends the distinct Object class defined in src/callable.py, so a block
value fails this check. -/
def isinstance_object : Value → Bool
  | .module _ => true
  | _ => false

/-- The dataclass repr of a value, used in the DivisionException message of
_evaluate_idivide (the finite-float formatting is approximated; only
non-finite floats reach that message). -/
def pyRepr : Value → String
  | .int n => "Int(val=" ++ toString n ++ ")"
  | .float (.finite q) => "Float(val=" ++ toString q ++ ")"
  | .float .inf => "Float(val=inf)"
  | .float .neginf => "Float(val=-inf)"
  | .float .nan => "Float(val=nan)"
  | v => v.type_name

namespace Interp

/-- KiddouModule.get_attr: get_local, with NameException rewritten to
AttributeException. -/
def module_get_attr (envId : ℕ) (name : String) : IM Value := fun s =>
  match envGetLocal envId name s with
  | (.error (.rexc (.nameException _)), s') =>
      (.error (.rexc (.attributeException ("undefined attribute: " ++ name))), s')
  | r => r

/-- KiddouModule.set_attr: overwrite_local, with NameException rewritten
to AttributeException (ImmutableException passes through). -/
def module_set_attr (envId : ℕ) (name : String) (value : Value) : IM Unit := fun s =>
  match envOverwriteLocal envId name value s with
  | (.error (.rexc (.nameException _)), s') =>
      (.error (.rexc (.attributeException ("undefined attribute: " ++ name))), s')
  | r => r

/-- KiddouBlock.get_attr: get_local on the block's stored environment,
with NameException rewritten to AttributeException. -/
def block_get_attr (bid : ℕ) (name : String) : IM Value := fun s =>
  match (do
    let bd ← getBlockData bid
    envGetLocal bd.envRef name : IM Value) s with
  | (.error (.rexc (.nameException _)), s') =>
      (.error (.rexc (.attributeException ("undefined attribute: " ++ name))), s')
  | r => r

/-- KiddouBlock.set_attr: bind on the block's stored environment (with the
default mutable = False). -/
def block_set_attr (bid : ℕ) (name : String) (value : Value) : IM Unit := do
  let bd ← getBlockData bid
  envBind bd.envRef name value false

/-- The finally branch of KiddouBlock's wrapped_func: store the invocation
environment on the block. -/
def setBlockEnv (bid envId : ℕ) : IM Unit :=
  StEx.modify fun s =>
    { s with blocks :=
        match s.blocks[bid]? with
        | some bd => s.blocks.set bid { bd with envRef := envId }
        | none => s.blocks }

/-- Interpreter._evaluate_literal.  The parser stores token.literal, which
is Python None for the keyword literals true/false/undef in this snapshot;
evaluating such a node yields None, modelled as a crash (no claim
evaluates keyword literals). -/
def evaluate_literal (value : Option Value) : IM Value :=
  match value with
  | some v => pure v
  | none => crash .noneError

/-- Interpreter._evaluate_variable: look the name up in the current
environment. -/
def evaluate_variable (name : String) : IM Value := do
  let s ← StEx.get
  envGet s.env name

/-- Interpreter._evaluate_block: form the captured environment by
copy_retain of dependent_names from the current environment and build the
block value.  dependent_names is None when the checker has not run, and
copy_retain(None) raises TypeError in Python. -/
def evaluate_block (stmts : List Stmt) (expr : Option Expr)
    (dependent_names : Option (Finset String)) : IM Value :=
  match dependent_names with
  | none => crash .noneError
  | some names => do
    let s ← StEx.get
    let block_env ← copyRetain s.env names
    let bid ← allocBlock ⟨stmts, expr, block_env, none⟩
    pure (.block bid)

mutual

/-- Interpreter._evaluate_expr: dispatch, converting an escaping
RuntimeException into a KiddouError carrying this expression's line. -/
def evalExpr : ℕ → Expr → IM Value
  | 0, _ => crash .fuelExhausted
  | fuel + 1, expr => fun s =>
    match evalDispatch fuel expr s with
    | (.error (.rexc e), s') => (.error (.kiddou e expr.line), s')
    | r => r

/-- The expr_handlers dispatch of Interpreter.__init__ (no entry for Index
or Sequence: KeyError). -/
def evalDispatch : ℕ → Expr → IM Value
  | 0, _ => crash .fuelExhausted
  | fuel + 1, expr =>
    match expr with
    | .binary _ left operator right => evaluate_binary fuel operator left right
    | .unary _ operator e => evaluate_unary fuel operator e
    | .literal _ value => evaluate_literal value
    | .var _ name => evaluate_variable name
    | .call _ callee arguments => evaluate_call fuel callee arguments
    | .attribute _ obj name => evaluate_attribute fuel obj name
    | .block _ _ stmts e deps => evaluate_block stmts e deps
    | .index _ _ _ => crash .keyError
    | .sequence _ _ _ => crash .keyError

/-- The binary_handlers dispatch of Interpreter.__init__. -/
def evaluate_binary : ℕ → BinaryOp → Expr → Expr → IM Value
  | 0, _, _, _ => crash .fuelExhausted
  | fuel + 1, operator, left, right =>
    match operator with
    | .add => evaluate_add fuel left right
    | .subtract => evaluate_subtract fuel left right
    | .multiply => evaluate_multiply fuel left right
    | .divide => evaluate_divide fuel left right
    | .idivide => evaluate_idivide fuel left right
    | .modulus => evaluate_modulus fuel left right
    | .power => evaluate_power fuel left right
    | .equal => evaluate_equal fuel left right
    | .not_equal => evaluate_not_equal fuel left right
    | .less => evaluate_less fuel left right
    | .less_equal => evaluate_less_equal fuel left right
    | .greater => evaluate_greater fuel left right
    | .greater_equal => evaluate_greater_equal fuel left right
    | .and_ => evaluate_and fuel left right
    | .or_ => evaluate_or fuel left right
    | .domain => evaluate_domain fuel left right
    | .piece => evaluate_piece fuel left right

/-- Interpreter._evaluate_add. -/
def evaluate_add : ℕ → Expr → Expr → IM Value
  | 0, _, _ => crash .fuelExhausted
  | fuel + 1, left, right => do
    let left_val ← evalExpr fuel left
    let right_val ← evalExpr fuel right
    if left_val.isUndef || right_val.isUndef then pure .undef
    else match left_val, right_val with
    | .int a, .int b => pure (.int (a + b))
    | l, r =>
      if is_number l && is_number r then
        pure (.float (PyFloat.pyAdd (numF l) (numF r)))
      else match l, r with
      | .str a, .str b => pure (.str (a ++ b))
      | _, _ => throwR (type_exception "+" [l, r])

/-- Interpreter._evaluate_subtract. -/
def evaluate_subtract : ℕ → Expr → Expr → IM Value
  | 0, _, _ => crash .fuelExhausted
  | fuel + 1, left, right => do
    let left_val ← evalExpr fuel left
    let right_val ← evalExpr fuel right
    if left_val.isUndef || right_val.isUndef then pure .undef
    else match left_val, right_val with
    | .int a, .int b => pure (.int (a - b))
    | l, r =>
      if is_number l && is_number r then
        pure (.float (PyFloat.pySub (numF l) (numF r)))
      else throwR (type_exception "-" [l, r])

/-- Interpreter._evaluate_multiply. -/
def evaluate_multiply : ℕ → Expr → Expr → IM Value
  | 0, _, _ => crash .fuelExhausted
  | fuel + 1, left, right => do
    let left_val ← evalExpr fuel left
    let right_val ← evalExpr fuel right
    if left_val.isUndef || right_val.isUndef then pure .undef
    else match left_val, right_val with
    | .int a, .int b => pure (.int (a * b))
    | l, r =>
      if is_number l && is_number r then
        pure (.float (PyFloat.pyMul (numF l) (numF r)))
      else throwR (type_exception "*" [l, r])

/-- Interpreter._evaluate_divide: float division; on a zero divisor, nan
when the numerator is 0 or nan, else an infinity carrying the numerator's
sign. -/
def evaluate_divide : ℕ → Expr → Expr → IM Value
  | 0, _, _ => crash .fuelExhausted
  | fuel + 1, left, right => do
    let left_val ← evalExpr fuel left
    let right_val ← evalExpr fuel right
    if left_val.isUndef || right_val.isUndef then pure .undef
    else
      if is_number left_val && is_number right_val then
        let lf := numF left_val
        let rf := numF right_val
        if rf.isZero then
          pure (.float (if lf.isZero || lf.isNan then .nan
            else if lf.isNegSign then .neginf else .inf))
        else pure (.float (PyFloat.pyDiv lf rf))
      else throwR (type_exception "/" [left_val, right_val])

/-- Interpreter._evaluate_idivide: int(left // right); DivisionException
on a zero divisor and on the ValueError raised by int() of a non-finite
quotient. -/
def evaluate_idivide : ℕ → Expr → Expr → IM Value
  | 0, _, _ => crash .fuelExhausted
  | fuel + 1, left, right => do
    let left_val ← evalExpr fuel left
    let right_val ← evalExpr fuel right
    if left_val.isUndef || right_val.isUndef then pure .undef
    else
      if is_number left_val && is_number right_val then
        let rf := numF right_val
        if rf.isZero then throwR (.divisionException "cannot integer divide by 0")
        else
          match numF left_val, rf with
          | .finite a, .finite b => pure (.int ⌊a / b⌋)
          | .finite a, .inf => pure (.int (PyFloat.floorDivByInf (.finite a) false))
          | .finite a, .neginf => pure (.int (PyFloat.floorDivByInf (.finite a) true))
          | _, _ => throwR (.divisionException
              ("cannot integer divide into " ++ pyRepr left_val))
      else throwR (type_exception "//" [left_val, right_val])

/-- Interpreter._evaluate_modulus. -/
def evaluate_modulus : ℕ → Expr → Expr → IM Value
  | 0, _, _ => crash .fuelExhausted
  | fuel + 1, left, right => do
    let left_val ← evalExpr fuel left
    let right_val ← evalExpr fuel right
    if left_val.isUndef || right_val.isUndef then pure .undef
    else match left_val, right_val with
    | .int a, .int b =>
        if b = 0 then throwR (.divisionException "cannot integer divide by 0")
        else pure (.int (Int.fmod a b))
    | l, r =>
      if is_number l && is_number r then
        let lf := numF l
        let rf := numF r
        if rf.isZero then
          pure (.float (if lf.isZero || lf.isNan then .nan
            else if lf.isNegSign then .neginf else .inf))
        else pure (.float (PyFloat.pyMod lf rf))
      else throwR (type_exception "%" [l, r])

/-- Interpreter._evaluate_power.  Python int ** int with a negative
exponent returns a float, which the source wraps in the Int dataclass; the
embedding keeps its numeric value as a Float.  0 ** negative raises an
uncaught ZeroDivisionError. -/
def evaluate_power : ℕ → Expr → Expr → IM Value
  | 0, _, _ => crash .fuelExhausted
  | fuel + 1, left, right => do
    let left_val ← evalExpr fuel left
    let right_val ← evalExpr fuel right
    if left_val.isUndef || right_val.isUndef then pure .undef
    else match left_val, right_val with
    | .int a, .int b =>
        if 0 ≤ b then pure (.int (a ^ b.toNat))
        else if a = 0 then crash .zeroDivisionError
        else pure (.float (.finite ((a : ℚ) ^ b)))
    | l, r =>
      if is_number l && is_number r then
        match PyFloat.pyPow (numF l) (numF r) with
        | some f => pure (.float f)
        | none => pure (.float .nan)
      else throwR (type_exception "^" [l, r])

/-- Interpreter._evaluate_equal: Bool(left.val == right.val) after the
Undef check. -/
def evaluate_equal : ℕ → Expr → Expr → IM Value
  | 0, _, _ => crash .fuelExhausted
  | fuel + 1, left, right => do
    let left_val ← evalExpr fuel left
    let right_val ← evalExpr fuel right
    if left_val.isUndef || right_val.isUndef then pure .undef
    else match pyValEq left_val right_val with
    | .ok b => pure (.bool b)
    | .error c => crash c

/-- Interpreter._evaluate_not_equal. -/
def evaluate_not_equal : ℕ → Expr → Expr → IM Value
  | 0, _, _ => crash .fuelExhausted
  | fuel + 1, left, right => do
    let left_val ← evalExpr fuel left
    let right_val ← evalExpr fuel right
    if left_val.isUndef || right_val.isUndef then pure .undef
    else match pyValEq left_val right_val with
    | .ok b => pure (.bool (!b))
    | .error c => crash c

/-- Interpreter._evaluate_less. -/
def evaluate_less : ℕ → Expr → Expr → IM Value
  | 0, _, _ => crash .fuelExhausted
  | fuel + 1, left, right => do
    let left_val ← evalExpr fuel left
    let right_val ← evalExpr fuel right
    if left_val.isUndef || right_val.isUndef then pure .undef
    else if is_number left_val && is_number right_val then
      pure (.bool (PyFloat.pyLt (numF left_val) (numF right_val)))
    else throwR (type_exception "<" [left_val, right_val])

/-- Interpreter._evaluate_less_equal. -/
def evaluate_less_equal : ℕ → Expr → Expr → IM Value
  | 0, _, _ => crash .fuelExhausted
  | fuel + 1, left, right => do
    let left_val ← evalExpr fuel left
    let right_val ← evalExpr fuel right
    if left_val.isUndef || right_val.isUndef then pure .undef
    else if is_number left_val && is_number right_val then
      pure (.bool (PyFloat.pyLe (numF left_val) (numF right_val)))
    else throwR (type_exception "<=" [left_val, right_val])

/-- Interpreter._evaluate_greater. -/
def evaluate_greater : ℕ → Expr → Expr → IM Value
  | 0, _, _ => crash .fuelExhausted
  | fuel + 1, left, right => do
    let left_val ← evalExpr fuel left
    let right_val ← evalExpr fuel right
    if left_val.isUndef || right_val.isUndef then pure .undef
    else if is_number left_val && is_number right_val then
      pure (.bool (PyFloat.pyLt (numF right_val) (numF left_val)))
    else throwR (type_exception ">" [left_val, right_val])

/-- Interpreter._evaluate_greater_equal. -/
def evaluate_greater_equal : ℕ → Expr → Expr → IM Value
  | 0, _, _ => crash .fuelExhausted
  | fuel + 1, left, right => do
    let left_val ← evalExpr fuel left
    let right_val ← evalExpr fuel right
    if left_val.isUndef || right_val.isUndef then pure .undef
    else if is_number left_val && is_number right_val then
      pure (.bool (PyFloat.pyLe (numF right_val) (numF left_val)))
    else throwR (type_exception ">=" [left_val, right_val])

/-- Interpreter._evaluate_and (short-circuit). -/
def evaluate_and : ℕ → Expr → Expr → IM Value
  | 0, _, _ => crash .fuelExhausted
  | fuel + 1, left, right => do
    let left_val ← evalExpr fuel left
    if is_falsey left_val then pure left_val else evalExpr fuel right

/-- Interpreter._evaluate_or (short-circuit). -/
def evaluate_or : ℕ → Expr → Expr → IM Value
  | 0, _, _ => crash .fuelExhausted
  | fuel + 1, left, right => do
    let left_val ← evalExpr fuel left
    if is_truthy left_val then pure left_val else evalExpr fuel right

/-- Interpreter._evaluate_domain: the right operand is evaluated first and
guards the left. -/
def evaluate_domain : ℕ → Expr → Expr → IM Value
  | 0, _, _ => crash .fuelExhausted
  | fuel + 1, left, right => do
    let right_val ← evalExpr fuel right
    if is_falsey right_val then pure .undef else evalExpr fuel left

/-- Interpreter._evaluate_piece: left if defined, else right. -/
def evaluate_piece : ℕ → Expr → Expr → IM Value
  | 0, _, _ => crash .fuelExhausted
  | fuel + 1, left, right => do
    let left_val ← evalExpr fuel left
    if left_val.isUndef then evalExpr fuel right else pure left_val

/-- Interpreter._evaluate_unary and its unary_handlers dispatch. -/
def evaluate_unary : ℕ → UnaryOp → Expr → IM Value
  | 0, _, _ => crash .fuelExhausted
  | fuel + 1, operator, e =>
    match operator with
    | .negate => evaluate_negate fuel e
    | .not_ => evaluate_not fuel e

/-- Interpreter._evaluate_negate. -/
def evaluate_negate : ℕ → Expr → IM Value
  | 0, _ => crash .fuelExhausted
  | fuel + 1, e => do
    let expr_val ← evalExpr fuel e
    match expr_val with
    | .undef => pure .undef
    | .int n => pure (.int (-n))
    | .float f => pure (.float (PyFloat.neg f))
    | v => throwR (type_exception "- (unary)" [v])

/-- Interpreter._evaluate_not. -/
def evaluate_not : ℕ → Expr → IM Value
  | 0, _ => crash .fuelExhausted
  | fuel + 1, e => do
    let expr_val ← evalExpr fuel e
    match expr_val with
    | .undef => pure .undef
    | .bool b => pure (.bool (!b))
    | v => throwR (type_exception "!" [v])

/-- Interpreter._evaluate_call: the callee must be Callable; arguments are
evaluated left to right; the current environment is passed to call (user
blocks ignore it and use their captured environment). -/
def evaluate_call : ℕ → Expr → List Expr → IM Value
  | 0, _, _ => crash .fuelExhausted
  | fuel + 1, callee, arguments => do
    let callee_val ← evalExpr fuel callee
    if !isCallable callee_val then
      throwR (.typeException ("type: <" ++ callee_val.type_name ++ "> is not callable"))
    else do
      let args ← eval_args fuel arguments
      call_value fuel callee_val args

/-- The argument list comprehension of _evaluate_call. -/
def eval_args : ℕ → List Expr → IM (List Value)
  | 0, _ => crash .fuelExhausted
  | _ + 1, [] => pure []
  | fuel + 1, a :: rest => do
    let v ← evalExpr fuel a
    let vs ← eval_args fuel rest
    pure (v :: vs)

/-- Callable.call.  A LibraryFunction (print) writes to stdout and returns
Undef.  A KiddouBlock runs its wrapped_func: copy the stored environment
with copy_retain of the empty set, run the body, and in a finally store
the new environment back on the block. -/
def call_value : ℕ → Value → List Value → IM Value
  | 0, _, _ => crash .fuelExhausted
  | _ + 1, .libfunc _, _ => pure .undef
  | fuel + 1, .block bid, _ => do
    let bd ← getBlockData bid
    let new_env ← copyRetain bd.envRef ∅
    StEx.withFinally (run_block fuel bd new_env) (setBlockEnv bid new_env)
  | _ + 1, _, _ => crash .keyError

/-- The run_block closure of _evaluate_block together with _switch_env:
switch the interpreter to the invocation environment, execute the body's
statements, evaluate the tail expression (Undef when absent), and restore
the previous environment on every exit path.  No binding of this (or of
anything else) is made in the invocation environment. -/
def run_block : ℕ → BlockData → ℕ → IM Value
  | 0, _, _ => crash .fuelExhausted
  | fuel + 1, bd, envId => do
    let s ← StEx.get
    let old_env := s.env
    StEx.withFinally
      (do
        StEx.modify fun st => { st with env := envId }
        exec_stmts fuel bd.stmts
        match bd.expr with
        | none => pure Value.undef
        | some e => evalExpr fuel e)
      (StEx.modify fun st => { st with env := old_env })

/-- Interpreter._evaluate_attribute: the object must pass the
isinstance(_, Object) check against src/object.py's Object (only modules
do; block values fail it, see isinstance_object). -/
def evaluate_attribute : ℕ → Expr → String → IM Value
  | 0, _, _ => crash .fuelExhausted
  | fuel + 1, obj, name => do
    let obj_val ← evalExpr fuel obj
    if !isinstance_object obj_val then
      throwR (.typeException ("type: <" ++ obj_val.type_name ++
        "> does not have attributes"))
    else match obj_val with
    | .module envId => module_get_attr envId name
    | _ => crash .keyError

/-- Interpreter._execute_stmt: dispatch, converting an escaping
RuntimeException into a KiddouError carrying the statement's first line. -/
def exec_stmt : ℕ → Stmt → IM Unit
  | 0, _ => crash .fuelExhausted
  | fuel + 1, stmt => fun s =>
    match exec_dispatch fuel stmt s with
    | (.error (.rexc e), s') => (.error (.kiddou e stmt.line_start), s')
    | r => r

/-- The stmt_handlers dispatch: _execute_con and _execute_run.  A Run with
an Index receiver matches neither of the two receiver-type tests in
_execute_run, so nothing at all is done with the receiver and the value is
discarded. -/
def exec_dispatch : ℕ → Stmt → IM Unit
  | 0, _ => crash .fuelExhausted
  | fuel + 1, .con _ _ name expr => do
    let value ← evalExpr fuel expr
    let s ← StEx.get
    envBind s.env name value false
  | fuel + 1, .run _ _ receiver expr reassign => do
    let value ← evalExpr fuel expr
    match receiver with
    | none => pure ()
    | some rcv =>
      match rcv with
      | .var _ name => do
        let s ← StEx.get
        if reassign then envOverwrite s.env name value
        else envBind s.env name value true
      | .attribute _ obj aname => do
        let obj_val ← evalExpr fuel obj
        if !isinstance_object obj_val then
          throwR (.typeException ("type: <" ++ obj_val.type_name ++
            "> does not have attributes"))
        else match obj_val with
        | .module envId => module_set_attr envId aname value
        | _ => crash .keyError
      | _ => pure ()

/-- The statement loop of run_block and Interpreter.interpret. -/
def exec_stmts : ℕ → List Stmt → IM Unit
  | 0, _ => crash .fuelExhausted
  | _ + 1, [] => pure ()
  | fuel + 1, st :: rest => do
    exec_stmt fuel st
    exec_stmts fuel rest

end

end Interp

/-- The interpreter's initial state, from Interpreter.__init__ with the
pervasives of src/pervasives.py: globals bind inf, nan and print (all with
the default mutable = False), then this is bound to a KiddouModule wrapping
globals. -/
def initState : State :=
  { refs := [⟨.float .inf, false⟩, ⟨.float .nan, false⟩,
             ⟨.libfunc "print", false⟩, ⟨.module 0, false⟩],
    envs := [⟨[], [("inf", 0), ("nan", 1), ("print", 2), ("this", 3)]⟩],
    blocks := [],
    lists := [],
    env := 0 }


/-! ## The checker, from src/checker.py

The checker accumulates errors (it never aborts) and fills in
dependent_names on block nodes; the embedding returns the annotated tree.
The VisibleNames chain is a list of per-scope name sets, innermost first;
names added by a statement go to the head set (the caller threads it). -/

/-- The error-accumulating checker monad. -/
def CM (alpha : Type) : Type := List KiddouError → alpha × List KiddouError

instance : Monad CM where
  pure a := fun errs => (a, errs)
  bind x f := fun errs => match x errs with | (a, errs') => f a errs'

/-- Report an error to the handler (checker messages carry no column). -/
def report (message : String) (line : ℕ) : CM Unit :=
  fun errs => ((), errs ++ [⟨message, line, none, none⟩])

/-- VisibleNames.__contains__: the name is in some scope of the chain. -/
def vnContains (vn : List (Finset String)) (name : String) : Bool :=
  vn.any (fun names => decide (name ∈ names))

/-- StatementNames from src/checker.py. -/
structure StatementNames : Type where
  names_used : Finset String
  name_declared : Option String

mutual

/-- Checker._check_expr and the expr_handlers dispatch (the checker's
table covers every node kind). -/
def check_expr (vn : List (Finset String)) : Expr → CM (Expr × Finset String)
  | .binary line l operator r => do
    let (l', ul) ← check_expr vn l
    let (r', ur) ← check_expr vn r
    pure (.binary line l' operator r', ul ∪ ur)
  | .unary line operator e => do
    let (e', u) ← check_expr vn e
    pure (.unary line operator e', u)
  | .literal line v => pure (.literal line v, ∅)
  | .var line name => do
    if !vnContains vn name then report ("undefined variable: " ++ name) line
    pure (.var line name, {name})
  | .call line callee args => do
    let (c', uc) ← check_expr vn callee
    let (args', ua) ← check_exprs vn args
    pure (.call line c' args', uc ∪ ua)
  | .index line c i => do
    let (c', u1) ← check_expr vn c
    let (i', u2) ← check_expr vn i
    pure (.index line c' i', u1 ∪ u2)
  | .attribute line obj name => do
    let (o', u) ← check_expr vn obj
    pure (.attribute line o' name, u)
  | .block line is_eager stmts expr deps => do
    if is_eager then report "constructor: [<block>] is not supported" line
    let (stmts', used1, innerF) ← check_block_stmts vn {"this"} stmts
    let (expr', used) ← match expr with
      | none => pure ((none : Option Expr), used1)
      | some e => do
        let (e', names) ← check_expr (innerF :: vn) e
        pure (some e', used1 ∪ names.filter (fun nm => ¬ nm ∈ innerF))
    pure (.block line is_eager stmts' expr' (some ((vn.headD ∅) ∩ used)), used)
  | .sequence line is_eager elements => do
    if !is_eager then report "constructor: \x7b<seq>\x7d is not supported" line
    let (els', u) ← check_exprs vn elements
    pure (.sequence line is_eager els', u)

/-- The argument loop of Checker._check_call / _check_sequence. -/
def check_exprs (vn : List (Finset String)) :
    List Expr → CM (List Expr × Finset String)
  | [] => pure ([], ∅)
  | e :: rest => do
    let (e', u) ← check_expr vn e
    let (rest', us) ← check_exprs vn rest
    pure (e' :: rest', u ∪ us)

/-- Checker._check_stmt with its two handlers _check_con and _check_run.
In _check_run, name_declared is the receiver's name for a Variable
receiver whether or not it is a reassignment; an Index (or other)
receiver that is neither Variable nor Attribute only checks the
sub-expressions the source checks. -/
def check_stmt (vn : List (Finset String)) :
    Stmt → CM (Stmt × StatementNames)
  | .con l1 l2 name expr => do
    let (e', used) ← check_expr vn expr
    pure (.con l1 l2 name e', ⟨used, some name⟩)
  | .run l1 l2 none expr reassign => do
    let (e', used) ← check_expr vn expr
    pure (.run l1 l2 none e' reassign, ⟨used, none⟩)
  | .run l1 l2 (some rcv) expr reassign => do
    let (e', used) ← check_expr vn expr
    match rcv with
    | .var line name => do
      if reassign then do
        if !vnContains vn name then report ("undefined variable: " ++ name) line
        pure (.run l1 l2 (some (.var line name)) e' reassign,
          ⟨insert name used, some name⟩)
      else
        pure (.run l1 l2 (some (.var line name)) e' reassign, ⟨used, some name⟩)
    | .attribute aline obj aname => do
      if !reassign then
        report "attribute creation not allowed, use reassignment (:=) instead" aline
      let (rcv', u2) ← check_expr vn rcv
      pure (.run l1 l2 (some rcv') e' reassign, ⟨used ∪ u2, none⟩)
    | .index iline c i => do
      let (rcv', u2) ← check_expr vn rcv
      pure (.run l1 l2 (some rcv') e' reassign, ⟨used ∪ u2, none⟩)
    | other => pure (.run l1 l2 (some other) e' reassign, ⟨used, none⟩)

/-- The statement loop of Checker._check_block: thread the inner scope's
name set, filter each statement's names_used against the inner set as it
stood for that statement, and collect declared names into it.  Returns the
annotated statements, the accumulated names_used, and the final inner
set. -/
def check_block_stmts (vn : List (Finset String)) (inner : Finset String) :
    List Stmt → CM (List Stmt × Finset String × Finset String)
  | [] => pure ([], ∅, inner)
  | st :: rest => do
    let (st', sn) ← check_stmt (inner :: vn) st
    let used := sn.names_used.filter (fun nm => ¬ nm ∈ inner)
    let inner' := match sn.name_declared with
      | some d => insert d inner
      | none => inner
    let (rest', used2, innerF) ← check_block_stmts vn inner' rest
    pure (st' :: rest', used ∪ used2, innerF)

end

/-- The statement loop of Checker.check: the chain starts as the single
scope of the environment's keys; each declared name is added to it. -/
def check_loop (names : Finset String) : List Stmt → CM (List Stmt)
  | [] => pure []
  | st :: rest => do
    let (st', sn) ← check_stmt [names] st
    let names' := match sn.name_declared with
      | some d => insert d names
      | none => names
    let rest' ← check_loop names' rest
    pure (st' :: rest')

/-- Checker.check against an environment (the interpreter passes its
globals). -/
def check (stmts : List Stmt) (environment : EnvData) : CM (List Stmt) :=
  check_loop environment.keys stmts

/-- The name-set of the initial globals (pervasives and this). -/
def initKeys : Finset String := EnvData.keys (initState.envs.getD 0 ⟨[], []⟩)

/-! ## The names a block body references before their local introduction

A second definition, following the amended C4 description rather than the
checker's code: the names referenced inside a block at a statement
position before being introduced within the block, with this
pre-introduced in the inner scope.  The theorems below prove the checker's
names_used and dependent_names coincide with it. -/

mutual

/-- The names a statement or expression uses, before any scope filtering
(visibility only produces error reports, never changes the set). -/
def free_uses_expr : Expr → Finset String
  | .binary _ l _ r => free_uses_expr l ∪ free_uses_expr r
  | .unary _ _ e => free_uses_expr e
  | .var _ name => {name}
  | .literal _ _ => ∅
  | .call _ c args => free_uses_expr c ∪ free_uses_exprs args
  | .index _ c i => free_uses_expr c ∪ free_uses_expr i
  | .attribute _ o _ => free_uses_expr o
  | .block _ _ stmts e _ => block_body_uses {"this"} stmts e
  | .sequence _ _ els => free_uses_exprs els
termination_by e => sizeOf e

def free_uses_exprs : List Expr → Finset String
  | [] => ∅
  | e :: rest => free_uses_expr e ∪ free_uses_exprs rest
termination_by l => sizeOf l

/-- The used names and declared name of a statement (a reassigned
Variable receiver both uses and declares its name). -/
def free_uses_stmt : Stmt → Finset String × Option String
  | .con _ _ name e => (free_uses_expr e, some name)
  | .run _ _ none e _ => (free_uses_expr e, none)
  | .run _ _ (some rcv) e reassign =>
    let base := free_uses_expr e
    match rcv with
    | .var _ name => (if reassign then insert name base else base, some name)
    | .attribute _ obj _ => (base ∪ free_uses_expr obj, none)
    | .index _ c i => (base ∪ (free_uses_expr c ∪ free_uses_expr i), none)
    | _ => (base, none)
termination_by st => sizeOf st

/-- The names a block body (statements, then the optional tail
expression) references at a point before their introduction within the
block, given the names already introduced. -/
def block_body_uses (intro : Finset String) :
    List Stmt → Option Expr → Finset String
  | [], none => ∅
  | [], some e => (free_uses_expr e).filter (fun nm => ¬ nm ∈ intro)
  | st :: rest, e =>
    let u := (free_uses_stmt st).1
    u.filter (fun nm => ¬ nm ∈ intro) ∪
      block_body_uses
        (match (free_uses_stmt st).2 with
         | some n => insert n intro
         | none => intro) rest e
termination_by stmts e => sizeOf stmts + sizeOf e

end


/-! ## Fixtures and projections used by the interpreter theorems -/

/-- The thirteen operators of the undef-propagation claim (the
non-short-circuit binary operators). -/
def undefPropagatingOps : List BinaryOp :=
  [.add, .subtract, .multiply, .divide, .idivide, .modulus, .power,
   .equal, .not_equal, .less, .less_equal, .greater, .greater_equal]

/-- The state after executing con x = 7 from the initial state: a fifth
reference holding Int 7 (immutable) and x added to the globals. -/
def conWitnessState : State :=
  { refs := [⟨.float .inf, false⟩, ⟨.float .nan, false⟩,
             ⟨.libfunc "print", false⟩, ⟨.module 0, false⟩, ⟨.int 7, false⟩],
    envs := [⟨[], [("inf", 0), ("nan", 1), ("print", 2), ("this", 3), ("x", 4)]⟩],
    blocks := [],
    lists := [],
    env := 0 }

/-- A state whose globals additionally bind xs to the one-element list
[Int 1] (list heap slot 0). -/
def listState : State :=
  { refs := [⟨.float .inf, false⟩, ⟨.float .nan, false⟩,
             ⟨.libfunc "print", false⟩, ⟨.module 0, false⟩, ⟨.list 0, true⟩],
    envs := [⟨[], [("inf", 0), ("nan", 1), ("print", 2), ("this", 3), ("xs", 4)]⟩],
    blocks := [],
    lists := [[.int 1]],
    env := 0 }

/-- The block literal con-k-equals-5-then-k: one statement, tail k. -/
def blkK : Expr :=
  .block 1 false [.con 1 1 "k" (.literal 1 (some (.int 5)))]
    (some (.var 1 "k")) (some ∅)

/-- The dependent_names annotation of a block node. -/
def dependent_names_of : Expr → Option (Finset String)
  | .block _ _ _ _ d => d
  | _ => none

/-- The inner-scope name set after a list of block statements has
introduced its names. -/
def introduced (intro : Finset String) : List Stmt → Finset String
  | [] => intro
  | st :: rest =>
    introduced
      (match (free_uses_stmt st).2 with
       | some n => insert n intro
       | none => intro) rest

/-! ## Theorems settling the claims -/

/-- C10: For every KiddouList of length n and every Int index i, negative
indices wrap from the end: get returns the element at position n+i when
-n <= i <= -1 and returns Undef exactly when i >= n or i < -n; set writes
position n+i in place when -n <= i <= -1 and raises
IndexOutOfBoundsException exactly when i >= n or i < -n. -/
theorem list_index_negative_wrap (ls : List Value) (i : ℤ) (v : Value) :
    (0 ≤ i → i < (ls.length : ℤ) →
      KiddouList.get ls (.int i) = .ok (ls.getD i.toNat .undef))
  ∧ (-(ls.length : ℤ) ≤ i → i ≤ -1 →
      KiddouList.get ls (.int i) = .ok (ls.getD ((ls.length : ℤ) + i).toNat .undef))
  ∧ ((ls.length : ℤ) ≤ i ∨ i < -(ls.length : ℤ) →
      KiddouList.get ls (.int i) = .ok .undef)
  ∧ (0 ≤ i → i < (ls.length : ℤ) →
      KiddouList.set ls (.int i) v = .ok (ls.set i.toNat v))
  ∧ (-(ls.length : ℤ) ≤ i → i ≤ -1 →
      KiddouList.set ls (.int i) v = .ok (ls.set ((ls.length : ℤ) + i).toNat v))
  ∧ (KiddouList.set ls (.int i) v = .error (.indexOutOfBoundsException
        (toString (max (-i - 1) i) ++ ">=" ++ toString ls.length)) ↔
      ((ls.length : ℤ) ≤ i ∨ i < -(ls.length : ℤ))) := by
  have hguard : (max (-i - 1) i < (ls.length : ℤ)) ↔
      ¬ ((ls.length : ℤ) ≤ i ∨ i < -(ls.length : ℤ)) := by omega
  refine ⟨?_, ?_, ?_, ?_, ?_, ?_⟩
  · intro h0 hlt
    have hn : i.toNat < ls.length := by omega
    rw [KiddouList.get, if_pos (by omega), KiddouList.pyGetItem, if_pos h0,
      if_pos hlt, List.getElem?_eq_getElem hn, List.getD_eq_getElem ls _ hn]
  · intro hl hu
    have hn : ((ls.length : ℤ) + i).toNat < ls.length := by omega
    rw [KiddouList.get, if_pos (by omega), KiddouList.pyGetItem,
      if_neg (by omega), if_pos (by omega), List.getElem?_eq_getElem hn,
      List.getD_eq_getElem ls _ hn]
  · intro h
    rw [KiddouList.get, if_neg (by omega)]
  · intro h0 hlt
    have hn : i.toNat < ls.length := by omega
    rw [KiddouList.set, if_pos (by omega), KiddouList.pySetItem, if_pos h0,
      if_pos hlt]
  · intro hl hu
    rw [KiddouList.set, if_pos (by omega), KiddouList.pySetItem,
      if_neg (by omega), if_pos (by omega)]
  · constructor
    · intro h
      by_contra hin
      rw [KiddouList.set, if_pos (hguard.mpr hin), KiddouList.pySetItem] at h
      rcases le_or_lt 0 i with h0 | h0
      · rw [if_pos h0, if_pos (by omega)] at h
        exact Except.noConfusion h
      · rw [if_neg (by omega), if_pos (by omega)] at h
        exact Except.noConfusion h
    · intro h
      rw [KiddouList.set, if_neg (by omega)]

/-- Witness for C10 at a concrete input: a two-element list read and
written at index -1. -/
theorem list_index_negative_wrap_witness :
    KiddouList.get [Value.int 7, Value.int 8] (.int (-1)) = .ok (Value.int 8) ∧
    KiddouList.set [Value.int 7, Value.int 8] (.int (-2)) (Value.int 5) =
      .ok [Value.int 5, Value.int 8] ∧
    KiddouList.set [Value.int 7, Value.int 8] (.int (-3)) (Value.int 5) =
      .error (.indexOutOfBoundsException "2>=2") := by
  refine ⟨?_, ?_, ?_⟩
  · exact (list_index_negative_wrap [Value.int 7, Value.int 8] (-1)
      (Value.int 5)).2.1 (by decide) (by decide)
  · exact (list_index_negative_wrap [Value.int 7, Value.int 8] (-2)
      (Value.int 5)).2.2.2.2.1 (by decide) (by decide)
  · exact (list_index_negative_wrap [Value.int 7, Value.int 8] (-3)
      (Value.int 5)).2.2.2.2.2.mpr (by decide)



/-- C7 (refuted at concrete inputs): the scanner of src/scanner.py has no
handler for =, :, braces or brackets (they are reported as unknown
characters and produce no token), and -> scans as MINUS then GREATER; no
ASSIGN, RE_ASSIGN, ARROW, LBRACE, RBRACE, LBRACKET or RBRACKET token is
ever emitted (the latter two kinds do not even exist in src/token_type.py). -/
theorem scanner_assignment_chars_are_unknown :
    (Scanner.scan_tokens "=").1 = .ok [⟨.eof, 1, "", none⟩] ∧
    (Scanner.scan_tokens "=").2.errors.map (fun e => e.message) =
      ["unknown character " ++ sq ++ "=" ++ sq] ∧
    (Scanner.scan_tokens ":=").1 = .ok [⟨.eof, 1, "", none⟩] ∧
    (Scanner.scan_tokens ":=").2.errors.map (fun e => e.message) =
      ["unknown character " ++ sq ++ ":" ++ sq,
       "unknown character " ++ sq ++ "=" ++ sq] ∧
    (Scanner.scan_tokens "->").1 =
      .ok [⟨.minus, 1, "-", none⟩, ⟨.greater, 1, ">", none⟩, ⟨.eof, 1, "", none⟩] ∧
    (Scanner.scan_tokens "\x7b").2.errors.map (fun e => e.message) =
      ["unknown character " ++ sq ++ "\x7b" ++ sq] ∧
    (Scanner.scan_tokens "\x7d").2.errors.map (fun e => e.message) =
      ["unknown character " ++ sq ++ "\x7d" ++ sq] ∧
    (Scanner.scan_tokens "[").2.errors.map (fun e => e.message) =
      ["unknown character " ++ sq ++ "[" ++ sq] ∧
    (Scanner.scan_tokens "]").2.errors.map (fun e => e.message) =
      ["unknown character " ++ sq ++ "]" ++ sq] ∧
    (Scanner.scan_tokens "\x7b").1 = .ok [⟨.eof, 1, "", none⟩] ∧
    (Scanner.scan_tokens "[").1 = .ok [⟨.eof, 1, "", none⟩] := by
  refine ⟨?_, ?_, ?_, ?_, ?_, ?_, ?_, ?_, ?_, ?_, ?_⟩ <;> decide

/-- C9 (refuted at a concrete input): scanning an unterminated string that
reaches the end of input records the "unterminated string" error but then
calls _advance past the end of the source, raising IndexError: the scanner
aborts and produces no token list at all. -/
theorem scanner_unterminated_string_aborts :
    (Scanner.scan_tokens "\x22abc").1 = .error .indexError ∧
    (Scanner.scan_tokens "\x22abc").2.errors.map (fun e => e.message) =
      ["unterminated string"] := by
  exact ⟨by decide, by decide⟩



set_option maxRecDepth 20000 in
/-- C8 (refuted at a concrete input): _parse_arguments checks
len(result) > 255 before appending, so a call with 256 arguments parses
with no error at all; the first "Can't pass more than 255 arguments."
error is recorded only when the 257th argument's comma is seen.  The first
conjunct checks the end-to-end wiring on a 3-argument call; the others
exercise the argument while-loop at the 255/256 boundary. -/
theorem parser_accepts_256_arguments :
    parse_call_summary 3 = (some 3, []) ∧
    arg_list_count (arguments_loop_at 255).1 = some 256 ∧
    (arguments_loop_at 255).2.errors = [] ∧
    arg_list_count (arguments_loop_at 256).1 = some 257 ∧
    (arguments_loop_at 256).2.errors =
      [⟨"Can\x27t pass more than 255 arguments.", 1, none, none⟩] := by
  refine ⟨?_, ?_, ?_, ?_, ?_⟩ <;> decide



/-! ### Applied forms of the monad primitives -/

theorem StEx.bind_apply {sigma eps alpha beta : Type} (x : StEx sigma eps alpha)
    (f : alpha → StEx sigma eps beta) (s : sigma) :
    (x >>= f) s = match x s with
      | (.ok a, s') => f a s'
      | (.error e, s') => (.error e, s') := rfl

theorem StEx.pure_apply {sigma eps alpha : Type} (a : alpha) (s : sigma) :
    (pure a : StEx sigma eps alpha) s = (.ok a, s) := rfl

theorem StEx.get_apply {sigma eps : Type} (s : sigma) :
    (StEx.get : StEx sigma eps sigma) s = (.ok s, s) := rfl

theorem StEx.modify_apply {sigma eps : Type} (f : sigma → sigma) (s : sigma) :
    (StEx.modify f : StEx sigma eps Unit) s = (.ok (), f s) := rfl

theorem StEx.throw_apply {sigma eps alpha : Type} (e : eps) (s : sigma) :
    (StEx.throw e : StEx sigma eps alpha) s = (.error e, s) := rfl

theorem dictGet_dictSet (d : List (String × ℕ)) (k : String) (v : ℕ) :
    dictGet (dictSet d k v) k = some v := by
  induction d with
  | nil => simp [dictGet, dictSet]
  | cons kv rest ih =>
    by_cases h : kv.1 = k <;> simp [dictGet, dictSet, h, ih]

/-! ### C1: undef propagation through the strict binary operators -/

/-- C1: for every binary operator among +, -, *, /, //, %, ^, <, <=, >,
>=, ==, !=, if both operands evaluate and either value is Undef, the whole
binary expression evaluates to Undef: no error is raised, whatever the
other operand's value. -/
theorem binary_undef_propagation (fuel line : ℕ) (op : BinaryOp)
    (e1 e2 : Expr) (s s1 s2 : State) (v1 v2 : Value)
    (hop : op ∈ undefPropagatingOps)
    (h1 : Interp.evalExpr fuel e1 s = (.ok v1, s1))
    (h2 : Interp.evalExpr fuel e2 s1 = (.ok v2, s2))
    (hundef : v1 = .undef ∨ v2 = .undef) :
    Interp.evalExpr (fuel + 4) (.binary line e1 op e2) s = (.ok .undef, s2) := by
  have hb : (v1.isUndef || v2.isUndef) = true := by
    rcases hundef with h | h <;> subst h <;> simp [Value.isUndef]
  have hstep : ∀ r : Except Failure Value × State,
      r = (Interp.evalDispatch (fuel + 3) (.binary line e1 op e2) s) →
      r = (.ok Value.undef, s2) →
      Interp.evalExpr (fuel + 4) (.binary line e1 op e2) s = (.ok .undef, s2) := by
    intro r hr h
    rw [Interp.evalExpr]
    show (match Interp.evalDispatch (fuel + 3) (.binary line e1 op e2) s with
      | (.error (.rexc e), s') =>
          ((.error (.kiddou e (Expr.binary line e1 op e2).line), s') :
            Except Failure Value × State)
      | r => r) = (.ok Value.undef, s2)
    rw [← hr, h]
  apply hstep _ rfl
  fin_cases hop <;>
    simp only [Interp.evalDispatch, Interp.evaluate_binary, Interp.evaluate_add,
      Interp.evaluate_subtract, Interp.evaluate_multiply, Interp.evaluate_divide,
      Interp.evaluate_idivide, Interp.evaluate_modulus, Interp.evaluate_power,
      Interp.evaluate_equal, Interp.evaluate_not_equal, Interp.evaluate_less,
      Interp.evaluate_less_equal, Interp.evaluate_greater,
      Interp.evaluate_greater_equal,
      StEx.bind_apply, h1, h2, hb, if_true, StEx.pure_apply]

/-- Witness for C1: undef + 1 evaluates to undef in the initial state. -/
theorem binary_undef_propagation_witness :
    BinaryOp.add ∈ undefPropagatingOps ∧
    Interp.evalExpr 6 (.binary 1 (.literal 1 (some .undef)) .add
      (.literal 1 (some (.int 1)))) initState = (.ok .undef, initState) :=
  ⟨by decide,
   binary_undef_propagation 2 1 .add _ _ initState initState initState .undef
     (.int 1) (by decide) rfl rfl (Or.inl rfl)⟩

/-! ### C5: Con bindings are immutable -/

/-- C5: executing con n = e binds n to an immutable reference holding the
value of e; executing run n := rhs afterwards (where evaluating rhs leaves
n still resolving to that reference) raises ImmutableException at the run
statement's line and leaves the state exactly as rhs evaluation left it,
the binding still holding the Con value. -/
theorem con_binding_immutable
    (f g l1 l2 l1' l2' lv : ℕ) (s s0 s2 : State) (ed0 ed : EnvData)
    (n : String) (e rhs : Expr) (w v : Value)
    (heval : Interp.evalExpr f e s = (.ok w, s0))
    (hed0 : s0.envs[s0.env]? = some ed0)
    (hrhs : Interp.evalExpr g rhs
      ((Interp.exec_stmt (f + 2) (.con l1 l2 n e) s).2) = (.ok v, s2))
    (hed : s2.envs[s2.env]? = some ed)
    (hlook : Interp.lookupRefId ed n = some s0.refs.length)
    (href : s2.refs[s0.refs.length]? = some ⟨w, false⟩) :
    (Interp.exec_stmt (f + 2) (.con l1 l2 n e) s).1 = .ok () ∧
    ((Interp.exec_stmt (f + 2) (.con l1 l2 n e) s).2).refs[s0.refs.length]? =
      some ⟨w, false⟩ ∧
    Interp.exec_stmt (g + 2) (.run l1' l2' (some (.var lv n)) rhs true)
        ((Interp.exec_stmt (f + 2) (.con l1 l2 n e) s).2) =
      (.error (.kiddou (.immutableException ("immutable variable: " ++ n ++ "."))
        l1'), s2) ∧
    (Interp.envGet s2.env n s2).1 = .ok w := by
  have hcon : Interp.exec_stmt (f + 2) (.con l1 l2 n e) s =
      (.ok (), { s0 with
        refs := s0.refs ++ [⟨w, false⟩],
        envs := s0.envs.set s0.env
          { ed0 with locals := dictSet ed0.locals n s0.refs.length } }) := by
    rw [Interp.exec_stmt]
    simp only [Interp.exec_dispatch, StEx.bind_apply, heval, StEx.get_apply,
      Interp.envBind, Interp.allocRef, Interp.getEnvData, Interp.setEnvData,
      StEx.modify_apply, StEx.pure_apply]
    simp only [hed0]
  have hover : Interp.envOverwrite s2.env n v s2 =
      (.error (.rexc (.immutableException ("immutable variable: " ++ n ++ "."))),
        s2) := by
    simp only [Interp.envOverwrite, StEx.bind_apply, Interp.getEnvData, hed,
      hlook, Interp.getRef, href]
    rfl
  refine ⟨by rw [hcon], by rw [hcon]; exact List.getElem?_concat_length _ _, ?_, ?_⟩
  · rw [Interp.exec_stmt]
    simp only [Interp.exec_dispatch, StEx.bind_apply, hrhs, StEx.get_apply,
      Bool.true_eq_false, if_true, hover, Stmt.line_start]
  · simp only [Interp.envGet, StEx.bind_apply, Interp.getEnvData, hed, hlook,
      Interp.getRef, href]
    rfl

/-- Witness for C5: con x = 7 then run x := 8 from the initial state. -/
theorem con_binding_immutable_witness :
    Interp.exec_stmt 4 (.run 2 2 (some (.var 2 "x")) (.literal 2 (some (.int 8))) true)
        ((Interp.exec_stmt 4 (.con 1 1 "x" (.literal 1 (some (.int 7)))) initState).2) =
      (.error (.kiddou (.immutableException ("immutable variable: " ++ "x" ++ "."))
        2), conWitnessState) ∧
    (Interp.envGet conWitnessState.env "x" conWitnessState).1 = .ok (.int 7) :=
  ⟨(con_binding_immutable 2 2 1 1 2 2 2 initState initState conWitnessState
      ⟨[], [("inf", 0), ("nan", 1), ("print", 2), ("this", 3)]⟩
      ⟨[], [("inf", 0), ("nan", 1), ("print", 2), ("this", 3), ("x", 4)]⟩
      "x" (.literal 1 (some (.int 7))) (.literal 2 (some (.int 8)))
      (.int 7) (.int 8) rfl rfl rfl rfl rfl rfl).2.2.1,
   (con_binding_immutable 2 2 1 1 2 2 2 initState initState conWitnessState
      ⟨[], [("inf", 0), ("nan", 1), ("print", 2), ("this", 3)]⟩
      ⟨[], [("inf", 0), ("nan", 1), ("print", 2), ("this", 3), ("x", 4)]⟩
      "x" (.literal 1 (some (.int 7))) (.literal 2 (some (.int 8)))
      (.int 7) (.int 8) rfl rfl rfl rfl rfl rfl).2.2.2⟩

/-! ### C2: block invocation does not bind this -/

/-- C2 (refuted at a concrete input): calling a block whose body is the
bare expression this raises NameException "undefined variable: this." —
run_block seeds the fresh environment from the captured one but never
binds this in it.  The other parts of the claim hold: the block con-k-5
runs its body in the fresh environment (the call returns 5) and the
invocation environment is retained as the block's attribute store, so
get_attr k reads the post-run binding. -/
theorem block_call_does_not_bind_this :
    (Interp.evalExpr 9 (.call 1 (.block 1 false [] (some (.var 1 "this")) (some ∅))
        []) initState).1 =
      .error (.kiddou (.nameException "undefined variable: this.") 1) ∧
    (Interp.evalExpr 12 (.call 1 blkK []) initState).1 = .ok (.int 5) ∧
    (Interp.block_get_attr 0 "k"
        ((Interp.evalExpr 12 (.call 1 blkK []) initState).2)).1 = .ok (.int 5) := by
  refine ⟨by decide, by decide, by decide⟩

/-! ### C3: a run statement with an Index receiver is silently ignored -/

/-- C3 (refuted at a concrete input): executing run xs[0] := 99 with xs
bound to the list [Int 1] succeeds without error and without touching the
list, the references or the environments — _execute_run has no branch for
an Index receiver, so the value is evaluated and silently discarded.
KiddouList.set, which the claim expects to be called, would have written
the element in place. -/
theorem run_index_receiver_ignored :
    Interp.exec_stmt 9 (.run 1 1 (some (.index 1 (.var 1 "xs")
        (.literal 1 (some (.int 0))))) (.literal 1 (some (.int 99))) true)
      listState = (.ok (), listState) ∧
    KiddouList.set [.int 1] (.int 0) (.int 99) = .ok [.int 99] := by
  exact ⟨rfl, by decide⟩

/-! ### C6: equality across primitive kinds -/

/-- C6 (refuted at concrete inputs): Int 1 == Float 1.0 and
Bool true == Int 1 both evaluate to Bool true (and Int 1 != Float 1.0 to
Bool false), because Python == compares Bool, Int and Float numerically
across kinds; the claim says different primitive kinds always compare
unequal. -/
theorem equality_different_kinds_counterexample :
    (Interp.evalExpr 9 (.binary 1 (.literal 1 (some (.int 1))) .equal
        (.literal 1 (some (.float (.finite 1))))) initState).1 = .ok (.bool true) ∧
    (Interp.evalExpr 9 (.binary 1 (.literal 1 (some (.bool true))) .equal
        (.literal 1 (some (.int 1)))) initState).1 = .ok (.bool true) ∧
    (Interp.evalExpr 9 (.binary 1 (.literal 1 (some (.int 1))) .not_equal
        (.literal 1 (some (.float (.finite 1))))) initState).1 = .ok (.bool false) := by
  refine ⟨by decide, by decide, by decide⟩

/-- C6 amended: == and != compare the underlying Python values: the
numeric kinds Bool, Int and Float compare numerically across kinds (a
bool is 0 or 1), strings compare as strings with other strings and
unequal to numbers, and same-kind values compare by value; != is the
negation on every such pair. -/
theorem equality_compares_by_python_value (line : ℕ) (s : State) :
    (∀ (a : ℤ) (q : ℚ),
      (Interp.evalExpr 9 (.binary line (.literal line (some (.int a))) .equal
        (.literal line (some (.float (.finite q))))) s).1 =
        .ok (.bool (decide ((a : ℚ) = q)))) ∧
    (∀ (b : Bool) (n : ℤ),
      (Interp.evalExpr 9 (.binary line (.literal line (some (.bool b))) .equal
        (.literal line (some (.int n)))) s).1 =
        .ok (.bool (decide ((if b then (1 : ℚ) else 0) = (n : ℚ))))) ∧
    (∀ (t : String) (n : ℤ),
      (Interp.evalExpr 9 (.binary line (.literal line (some (.str t))) .equal
        (.literal line (some (.int n)))) s).1 = .ok (.bool false)) ∧
    (∀ (t u : String),
      (Interp.evalExpr 9 (.binary line (.literal line (some (.str t))) .equal
        (.literal line (some (.str u)))) s).1 = .ok (.bool (decide (t = u)))) ∧
    (∀ (a b : ℤ),
      (Interp.evalExpr 9 (.binary line (.literal line (some (.int a))) .equal
        (.literal line (some (.int b)))) s).1 =
        .ok (.bool (decide ((a : ℚ) = (b : ℚ))))) ∧
    (∀ (a : ℤ) (q : ℚ),
      (Interp.evalExpr 9 (.binary line (.literal line (some (.int a))) .not_equal
        (.literal line (some (.float (.finite q))))) s).1 =
        .ok (.bool (!decide ((a : ℚ) = q)))) := by
  refine ⟨fun a q => ?_, fun b n => ?_, fun t n => ?_, fun t u => ?_,
    fun a b => ?_, fun a q => ?_⟩ <;>
  · simp only [Interp.evalExpr, Interp.evalDispatch, Interp.evaluate_binary,
      Interp.evaluate_equal, Interp.evaluate_not_equal, Interp.evaluate_literal,
      StEx.bind_apply, StEx.pure_apply, Value.isUndef, Bool.or_self,
      Bool.false_or, Bool.or_false, if_false, pyValEq, hasVal, numPayload,
      PyFloat.pyEq, Bool.not_true, Bool.not_false]
    try rfl
    try (cases b <;> rfl)




/-! ### C4: dependent_names of a checked block

The lemmas below relate the checker's threaded names_used computation to
the spec-level free_uses functions, then characterise the dependent_names
annotation.  The checker's used-name sets are independent of the scope
chain and of the accumulated errors (those only drive error reports). -/

theorem CM.run_bind {alpha beta : Type} (x : CM alpha) (f : alpha → CM beta)
    (errs : List KiddouError) :
    (x >>= f) errs = match x errs with | (a, errs') => f a errs' := rfl

theorem CM.run_pure {alpha : Type} (a : alpha) (errs : List KiddouError) :
    (pure a : CM alpha) errs = (a, errs) := rfl

theorem block_body_uses_some (stmts : List Stmt) (intro : Finset String) (e : Expr) :
    block_body_uses intro stmts (some e) =
      block_body_uses intro stmts none ∪
        (free_uses_expr e).filter (fun nm => ¬ nm ∈ introduced intro stmts) := by
  induction stmts generalizing intro with
  | nil => simp [block_body_uses, introduced]
  | cons st rest ih =>
    simp only [block_body_uses, introduced]
    rw [ih]
    exact (Finset.union_assoc _ _ _).symm

set_option maxHeartbeats 2000000 in
mutual

theorem check_expr_uses (vn : List (Finset String)) (e : Expr)
    (errs : List KiddouError) :
    (((check_expr vn e) errs).1).2 = free_uses_expr e := by
  cases e
  next line l op r =>
    simp only [check_expr, CM.run_bind, CM.run_pure, free_uses_expr]
    rw [check_expr_uses vn l errs, check_expr_uses vn r _]
  next line op e1 =>
    simp only [check_expr, CM.run_bind, CM.run_pure, free_uses_expr]
    rw [check_expr_uses vn e1 errs]
  next line name =>
    simp only [check_expr, free_uses_expr]
    split <;> simp [CM.run_bind, CM.run_pure, report]
  next line v =>
    simp only [check_expr, CM.run_pure, free_uses_expr]
  next line c args =>
    simp only [check_expr, CM.run_bind, CM.run_pure, free_uses_expr]
    rw [check_expr_uses vn c errs, check_exprs_uses vn args _]
  next line c i =>
    simp only [check_expr, CM.run_bind, CM.run_pure, free_uses_expr]
    rw [check_expr_uses vn c errs, check_expr_uses vn i _]
  next line obj name =>
    simp only [check_expr, CM.run_bind, CM.run_pure, free_uses_expr]
    rw [check_expr_uses vn obj errs]
  next line is_eager stmts expr deps =>
    cases expr with
    | none =>
      simp only [check_expr, free_uses_expr]
      split <;>
      · simp only [CM.run_bind, CM.run_pure, report]
        rw [(check_block_stmts_uses vn {"this"} stmts _).1]
    | some e1 =>
      simp only [check_expr, free_uses_expr]
      split <;>
      · simp only [CM.run_bind, CM.run_pure, report]
        rw [(check_block_stmts_uses vn {"this"} stmts _).1,
          (check_block_stmts_uses vn {"this"} stmts _).2,
          check_expr_uses _ e1 _, block_body_uses_some]
  next line is_eager els =>
    simp only [check_expr, free_uses_expr]
    split <;>
    · simp only [CM.run_bind, CM.run_pure, report]
      rw [check_exprs_uses vn els _]
termination_by sizeOf e

theorem check_exprs_uses (vn : List (Finset String)) (l : List Expr)
    (errs : List KiddouError) :
    (((check_exprs vn l) errs).1).2 = free_uses_exprs l := by
  cases l with
  | nil => simp [check_exprs, CM.run_pure, free_uses_exprs]
  | cons e rest =>
    simp only [check_exprs, CM.run_bind, CM.run_pure, free_uses_exprs]
    rw [check_expr_uses vn e errs, check_exprs_uses vn rest _]
termination_by sizeOf l

theorem check_stmt_uses (vn : List (Finset String)) (st : Stmt)
    (errs : List KiddouError) :
    (((check_stmt vn st) errs).1).2.names_used = (free_uses_stmt st).1 ∧
    (((check_stmt vn st) errs).1).2.name_declared = (free_uses_stmt st).2 := by
  cases st with
  | con l1 l2 name e =>
    simp only [check_stmt, CM.run_bind, CM.run_pure, free_uses_stmt]
    rw [check_expr_uses vn e errs]
    refine ⟨?_, ?_⟩ <;> trivial
  | run l1 l2 receiver e reassign =>
    cases receiver with
    | none =>
      simp only [check_stmt, CM.run_bind, CM.run_pure, free_uses_stmt]
      rw [check_expr_uses vn e errs]
      refine ⟨?_, ?_⟩ <;> trivial
    | some rcv =>
      cases rcv
      next vline vl vop vr =>
        simp only [check_stmt, CM.run_bind, CM.run_pure, free_uses_stmt]
        rw [check_expr_uses vn e errs]
        refine ⟨?_, ?_⟩ <;> trivial
      next vline vop ve =>
        simp only [check_stmt, CM.run_bind, CM.run_pure, free_uses_stmt]
        rw [check_expr_uses vn e errs]
        refine ⟨?_, ?_⟩ <;> trivial
      next vline vname =>
        have ih := check_expr_uses vn e errs
        cases reassign with
        | true =>
          constructor <;>
          · simp only [check_stmt, CM.run_bind, CM.run_pure, free_uses_stmt]
            repeat' split
            all_goals simp [CM.run_bind, CM.run_pure, report, ih]
        | false =>
          constructor <;>
            simp [check_stmt, CM.run_bind, CM.run_pure, free_uses_stmt, ih]
      next vline vv =>
        simp only [check_stmt, CM.run_bind, CM.run_pure, free_uses_stmt]
        rw [check_expr_uses vn e errs]
        refine ⟨?_, ?_⟩ <;> trivial
      next vline vc vargs =>
        simp only [check_stmt, CM.run_bind, CM.run_pure, free_uses_stmt]
        rw [check_expr_uses vn e errs]
        refine ⟨?_, ?_⟩ <;> trivial
      next vline vc vi =>
        simp only [check_stmt, CM.run_bind, CM.run_pure, free_uses_stmt]
        rw [check_expr_uses vn e errs,
          check_expr_uses vn (.index vline vc vi) _]
        simp only [free_uses_expr]
        refine ⟨?_, ?_⟩ <;> trivial
      next vline vobj vname =>
        have ih := check_expr_uses vn e errs
        have ih2 := fun er => check_expr_uses vn (.attribute vline vobj vname) er
        simp only [free_uses_expr] at ih2
        constructor <;>
        · simp only [check_stmt, CM.run_bind, CM.run_pure, free_uses_stmt]
          repeat' split
          all_goals simp [CM.run_bind, CM.run_pure, report, ih, ih2]
      next vline vb vstmts vex vd =>
        simp only [check_stmt, CM.run_bind, CM.run_pure, free_uses_stmt]
        rw [check_expr_uses vn e errs]
        refine ⟨?_, ?_⟩ <;> trivial
      next vline vb vels =>
        simp only [check_stmt, CM.run_bind, CM.run_pure, free_uses_stmt]
        rw [check_expr_uses vn e errs]
        refine ⟨?_, ?_⟩ <;> trivial
termination_by sizeOf st

theorem check_block_stmts_uses (vn : List (Finset String))
    (inner : Finset String) (stmts : List Stmt) (errs : List KiddouError) :
    (((check_block_stmts vn inner stmts) errs).1).2.1 =
      block_body_uses inner stmts none ∧
    (((check_block_stmts vn inner stmts) errs).1).2.2 = introduced inner stmts := by
  cases stmts with
  | nil =>
    refine ⟨?_, ?_⟩ <;>
    · simp only [check_block_stmts, CM.run_pure, block_body_uses, introduced]
  | cons st rest =>
    simp only [check_block_stmts, CM.run_bind, CM.run_pure,
      block_body_uses, introduced]
    rw [(check_stmt_uses (inner :: vn) st errs).1,
      (check_stmt_uses (inner :: vn) st errs).2,
      (check_block_stmts_uses vn _ rest _).1,
      (check_block_stmts_uses vn _ rest _).2]
    refine ⟨?_, ?_⟩ <;> trivial
termination_by sizeOf stmts

end

theorem mem_intro_not_mem_block_body_uses (stmts : List Stmt) (e : Option Expr)
    (intro : Finset String) (nm : String) (h : nm ∈ intro) :
    nm ∉ block_body_uses intro stmts e := by
  induction stmts generalizing intro with
  | nil =>
    cases e with
    | none => simp [block_body_uses]
    | some e1 => simp [block_body_uses, h]
  | cons st rest ih =>
    cases e with
    | none =>
      simp only [block_body_uses, Finset.mem_union, Finset.mem_filter, not_or]
      refine ⟨fun hc => hc.2 h, ih _ ?_⟩
      cases (free_uses_stmt st).2 with
      | none => exact h
      | some d => exact Finset.mem_insert_of_mem h
    | some e1 =>
      simp only [block_body_uses, Finset.mem_union, Finset.mem_filter, not_or]
      refine ⟨fun hc => hc.2 h, ih _ ?_⟩
      cases (free_uses_stmt st).2 with
      | none => exact h
      | some d => exact Finset.mem_insert_of_mem h

set_option maxHeartbeats 1000000 in
theorem check_block_result (vn : List (Finset String)) (line : ℕ)
    (is_eager : Bool) (stmts : List Stmt) (expr : Option Expr)
    (deps : Option (Finset String)) (errs : List KiddouError) :
    dependent_names_of
        ((((check_expr vn (.block line is_eager stmts expr deps)) errs).1).1) =
      some ((vn.headD ∅) ∩
        (((check_expr vn (.block line is_eager stmts expr deps)) errs).1).2) := by
  cases expr <;>
  · simp only [check_expr]
    split <;> simp only [CM.run_bind, CM.run_pure,
      report, dependent_names_of]

/-- C4 amended: after checking, a block's dependent_names equals the
intersection of the immediately enclosing scope's name set (which for a
top-level block includes the pervasives and this) with the set of names
referenced inside the block at a point before their introduction within
the block (this counting as pre-introduced); in particular this itself is
never captured. -/
theorem checker_block_dependent_names (vn : List (Finset String)) (line : ℕ)
    (is_eager : Bool) (stmts : List Stmt) (expr : Option Expr)
    (deps : Option (Finset String)) (errs : List KiddouError) :
    dependent_names_of
        ((((check_expr vn (.block line is_eager stmts expr deps)) errs).1).1) =
      some ((vn.headD ∅) ∩ block_body_uses {"this"} stmts expr) ∧
    "this" ∉ (vn.headD ∅) ∩ block_body_uses {"this"} stmts expr := by
  constructor
  · rw [check_block_result, check_expr_uses]
    simp only [free_uses_expr]
  · intro hmem
    exact mem_intro_not_mem_block_body_uses stmts expr {"this"} "this"
      (Finset.mem_singleton_self _) (Finset.mem_inter.mp hmem).2

set_option maxRecDepth 10000 in
/-- C4 (refuted at concrete inputs): a top-level block calling print gets
dependent_names = the pervasive name print, although pervasives are in no
user scope; and a block that reads x before redeclaring it with con gets
dependent_names containing x, although x is introduced within the block. -/
theorem checker_dependent_names_counterexample :
    dependent_names_of (((check_expr [initKeys] (.block 1 false []
        (some (.call 1 (.var 1 "print") [.literal 1 (some (.int 1))])) none)) []).1.1) =
      some {"print"} ∧
    "print" ∈ initKeys ∧
    dependent_names_of (((check_expr [insert "x" initKeys] (.block 1 false
        [.run 1 1 none (.var 1 "x") false, .con 2 2 "x" (.literal 2 (some (.int 2)))]
        (some (.literal 3 (some (.int 0))))
        none)) []).1.1) = some {"x"} := by
  refine ⟨?_, ?_, ?_⟩ <;> decide

end PyKiddou
